import Mathlib

/-!
# Verification of the `http2_parse` library against its specification

This file gives a shallow embedding, in Lean 4, of the parts of the
`http2_parse` C++ library that the specification claims are about:

* the HPACK primitives (integer and string encoding, RFC 7541 §5.1/§5.2),
* the HPACK Huffman codec (RFC 7541 Appendix B),
* the HPACK dynamic table (RFC 7541 §2.3, §4),
* the HPACK block decoder (`HpackDecoder::decode`),
* stream flow-control windows (`Http2Stream`),
* the connection engine pieces (`Http2Connection::apply_remote_setting`,
  `get_or_create_stream`, `send_data`, `handle_window_update_frame`,
  `process_incoming_data`) and the frame parser (`Http2Parser::parse`).

Bytes are modelled as natural numbers below 256, byte strings as `List Nat`.
Machine arithmetic is modelled over `Nat`/`Int` with explicit reductions
modulo `2 ^ w` exactly where the C++ fixed-width types can wrap.
-/

set_option maxHeartbeats 1000000
set_option maxRecDepth 8000

namespace Http2

/-- HPACK error codes, from `hpack_decoder.h` (`enum class HpackError`). -/
inductive HpackError where
  | OK
  | COMPRESSION_ERROR
  | INDEX_OUT_OF_BOUNDS
  | INVALID_HUFFMAN_CODE
  | INTEGER_OVERFLOW
  | INVALID_STRING_LENGTH
  | BUFFER_TOO_SMALL
  deriving DecidableEq, Repr

/-!
## HPACK integer primitive (RFC 7541 §5.1)

`HpackEncoder::encode_integer` (hpack_encoder.cpp): emits the value in the
`prefix_bits`-bit prefix when it fits, otherwise an all-ones prefix followed
by base-128 little-endian continuation bytes of `value - N`.
-/

/-- The continuation-byte tail loop of `HpackEncoder::encode_integer`:
`while (value >= 128) push(0x80 | value % 128), value /= 128; push(value)`. -/
def encodeIntegerTail (value : Nat) : List Nat :=
  if h : value ≥ 128 then
    (128 + value % 128) :: encodeIntegerTail (value / 128)
  else
    [value]
termination_by value
decreasing_by exact Nat.div_lt_self (by omega) (by omega)

/-- `HpackEncoder::encode_integer`: the bytes appended to the output buffer
for prefix pattern `prefixMask`, a `prefixBits`-bit prefix and `value`. -/
def encode_integer (prefixMask : Nat) (prefixBits : Nat) (value : Nat) : List Nat :=
  if value < 2 ^ prefixBits - 1 then
    [prefixMask ||| value]
  else
    (prefixMask ||| (2 ^ prefixBits - 1)) ::
      encodeIntegerTail (value - (2 ^ prefixBits - 1))

/-!
`HpackDecoder::decode_integer` (hpack_decoder.cpp lines 169-215).  The
C++ accumulates into a `uint64_t`, which we model by reducing the
accumulator modulo `2 ^ 64`.  The two overflow guards of the source are
kept verbatim: the (dead) heuristic `(m / 128) > (UINT64_MAX / 128)`
outer check with its inner `m >= 63` test, and the `m > 70` cutoff.
-/

/-- The multi-byte accumulation loop of `HpackDecoder::decode_integer`.
Returns the decoded value and the unconsumed suffix, or an error. -/
def decodeIntegerLoop : List Nat → Nat → Nat → (Except HpackError (Nat × List Nat))
  | [], _, _ => .error .BUFFER_TOO_SMALL
  | b :: rest, value, m =>
    if m / 128 > (2 ^ 64 - 1) / 128 ∧ m ≥ 63 ∧ b % 128 > 0 then
      .error .INTEGER_OVERFLOW
    else
      let value' := (value + (b % 128) * 2 ^ m) % 2 ^ 64
      let m' := m + 7
      if m' > 70 then .error .INTEGER_OVERFLOW
      else if b % 256 ≥ 128 then decodeIntegerLoop rest value' m'
      else .ok (value', rest)

/-- `HpackDecoder::decode_integer`: reads an integer with a
`prefixBits`-bit prefix from `data`, returning the value and the
unconsumed suffix of `data`. -/
def decode_integer (data : List Nat) (prefixBits : Nat) :
    Except HpackError (Nat × List Nat) :=
  match data with
  | [] => .error .BUFFER_TOO_SMALL
  | b :: rest =>
    if b % 2 ^ prefixBits < 2 ^ prefixBits - 1 then .ok (b % 2 ^ prefixBits, rest)
    else decodeIntegerLoop rest (b % 2 ^ prefixBits) 0

/-!  Round-trip lemmas for the integer primitive. -/

lemma encodeIntegerTail_eq (value : Nat) :
    encodeIntegerTail value =
      if value ≥ 128 then (128 + value % 128) :: encodeIntegerTail (value / 128)
      else [value] := by
  rw [encodeIntegerTail]
  by_cases h : value ≥ 128 <;> simp [h]

/-- The decode loop inverts the encode tail loop, for accumulator states that
cannot overflow. -/
lemma decodeIntegerLoop_encodeIntegerTail (value : Nat) :
    ∀ (acc m : Nat) (rest : List Nat),
      value < 2 ^ (63 - m) → m ≤ 63 → acc + value * 2 ^ m < 2 ^ 64 →
      decodeIntegerLoop (encodeIntegerTail value ++ rest) acc m =
        .ok (acc + value * 2 ^ m, rest) := by
  induction value using Nat.strong_induction_on with
  | _ value ih =>
    intro acc m rest hv hm hacc
    have hmdead : m / 128 = 0 := Nat.div_eq_of_lt (by omega)
    have hnotof : ∀ b : Nat,
        ¬ (m / 128 > (2 ^ 64 - 1) / 128 ∧ m ≥ 63 ∧ b % 128 > 0) := by
      intro b hb
      rw [hmdead] at hb
      exact absurd hb.1 (by norm_num)
    rw [encodeIntegerTail_eq]
    by_cases h128 : value ≥ 128
    · simp only [if_pos h128, List.cons_append]
      have hm63 : m ≤ 55 := by
        by_contra hgt
        have h7 : (63 : Nat) - m ≤ 7 := by omega
        have : 2 ^ (63 - m) ≤ 2 ^ 7 := Nat.pow_le_pow_right (by norm_num) h7
        omega
      rw [decodeIntegerLoop]
      simp only [if_neg (hnotof _)]
      have hm7 : ¬ (m + 7 > 70) := by omega
      simp only [if_neg hm7]
      have hbmod : (128 + value % 128) % 256 ≥ 128 := by
        have hb : 128 + value % 128 < 256 := by omega
        rw [Nat.mod_eq_of_lt hb]; omega
      simp only [if_pos hbmod]
      -- accumulator bookkeeping
      have hvmod : (128 + value % 128) % 128 = value % 128 := by omega
      have hq : value / 128 < 2 ^ (63 - (m + 7)) := by
        have h1 : value < 2 ^ (63 - (m + 7)) * 128 := by
          have h2 : (63 : Nat) - m = (63 - (m + 7)) + 7 := by omega
          rw [h2, pow_add] at hv
          simpa using hv
        omega
      have hsum : value % 128 * 2 ^ m + value / 128 * 2 ^ (m + 7) = value * 2 ^ m := by
        have hmd : value % 128 + 128 * (value / 128) = value := Nat.mod_add_div value 128
        calc value % 128 * 2 ^ m + value / 128 * 2 ^ (m + 7)
            = (value % 128 + 128 * (value / 128)) * 2 ^ m := by
              rw [pow_add]; ring
          _ = value * 2 ^ m := by rw [hmd]
      have hacc' : (acc + value % 128 * 2 ^ m) + value / 128 * 2 ^ (m + 7) < 2 ^ 64 := by
        omega
      have haccmod : (acc + (128 + value % 128) % 128 * 2 ^ m) % 2 ^ 64 =
          acc + value % 128 * 2 ^ m := by
        rw [hvmod]
        exact Nat.mod_eq_of_lt (by omega)
      rw [haccmod]
      rw [ih (value / 128) (Nat.div_lt_self (by omega) (by norm_num))
        (acc + value % 128 * 2 ^ m) (m + 7) rest hq (by omega) hacc']
      congr 2
      omega
    · simp only [if_neg h128, List.cons_append, List.nil_append]
      have hvlt : value < 128 := by omega
      rw [decodeIntegerLoop]
      simp only [if_neg (hnotof _)]
      have hm7 : ¬ (m + 7 > 70) := by omega
      simp only [if_neg hm7]
      have hbmod : ¬ (value % 256 ≥ 128) := by
        rw [Nat.mod_eq_of_lt (by omega)]; omega
      simp only [if_neg hbmod]
      have heq : (acc + value % 128 * 2 ^ m) % 2 ^ 64 = acc + value * 2 ^ m := by
        rw [Nat.mod_eq_of_lt hvlt, Nat.mod_eq_of_lt (by omega)]
      rw [heq]

/-- **C1.** HPACK integer primitive round-trip: for every prefix width
in `{4,5,6,7}` and every value below `2 ^ 32`, decoding
(`HpackDecoder::decode_integer`) the bytes produced by encoding the value
(`HpackEncoder::encode_integer` with a zero prefix pattern) yields exactly
that value with no error, and the decoder consumes exactly the bytes the
encoder emitted (any trailing bytes are returned unconsumed). -/
theorem hpack_integer_roundtrip (prefixBits value : Nat) (rest : List Nat)
    (hp : 4 ≤ prefixBits) (hp7 : prefixBits ≤ 7) (hv : value < 2 ^ 32) :
    decode_integer (encode_integer 0 prefixBits value ++ rest) prefixBits =
      .ok (value, rest) := by
  have hNlt : 2 ^ prefixBits - 1 < 2 ^ prefixBits :=
    Nat.sub_lt (Nat.pos_pow_of_pos _ (by norm_num)) (by norm_num)
  by_cases hsmall : value < 2 ^ prefixBits - 1
  · unfold encode_integer
    simp only [if_pos hsmall, List.cons_append, List.nil_append]
    simp only [decode_integer]
    rw [Nat.zero_or]
    have hvp : value % 2 ^ prefixBits = value := Nat.mod_eq_of_lt (by omega)
    rw [hvp, if_pos hsmall]
  · unfold encode_integer
    simp only [if_neg hsmall, List.cons_append]
    simp only [decode_integer]
    rw [Nat.zero_or]
    have hNp : (2 ^ prefixBits - 1) % 2 ^ prefixBits = 2 ^ prefixBits - 1 :=
      Nat.mod_eq_of_lt hNlt
    rw [hNp, if_neg (lt_irrefl _)]
    have hvN : value - (2 ^ prefixBits - 1) < 2 ^ (63 - 0) := by
      have h63 : (2 : Nat) ^ 32 ≤ 2 ^ 63 := Nat.pow_le_pow_right (by norm_num) (by norm_num)
      simp only [Nat.sub_zero]
      omega
    have hacc : (2 ^ prefixBits - 1) + (value - (2 ^ prefixBits - 1)) * 2 ^ 0 < 2 ^ 64 := by
      have h7 : (2 : Nat) ^ prefixBits ≤ 2 ^ 7 := Nat.pow_le_pow_right (by norm_num) hp7
      have h64 : (2 : Nat) ^ 32 ≤ 2 ^ 64 := Nat.pow_le_pow_right (by norm_num) (by norm_num)
      have h127 : (2 : Nat) ^ 7 = 128 := by norm_num
      rw [pow_zero, Nat.mul_one]
      omega
    rw [decodeIntegerLoop_encodeIntegerTail (value - (2 ^ prefixBits - 1))
      (2 ^ prefixBits - 1) 0 rest hvN (by norm_num) hacc]
    have hfinal : 2 ^ prefixBits - 1 + (value - (2 ^ prefixBits - 1)) * 2 ^ 0 = value := by
      rw [pow_zero, Nat.mul_one]
      omega
    rw [hfinal]

/-- Witness for `hpack_integer_roundtrip` at prefix width 5,
value 1337 and one trailing byte. -/
theorem hpack_integer_roundtrip_witness :
    decode_integer (encode_integer 0 5 1337 ++ [9]) 5 = .ok (1337, [9]) :=
  hpack_integer_roundtrip 5 1337 [9] (by norm_num) (by norm_num) (by norm_num)

/-!
## HPACK Huffman codec (RFC 7541 Appendix B), from `hpack_huffman.cpp`

The source keeps the code table in a `std::map<uint8_t, std::pair<uint32_t,
uint8_t>>` whose initializer list is reproduced verbatim below as an
association list `(symbol, code, number_of_bits)`.  The C++ initializer's
last entry is written with key `256`; under the `uint8_t` key type this
collapses to key `0`, which is already present, and `std::map`
construction keeps the first entry for a key, so that last entry is dead.
Lookups below take the first match, reproducing that behaviour.
-/

def HUFFMAN_CODES : List (Nat × Nat × Nat) := [
  (0, 0x1ff8, 13), (1, 0x7fffd8, 23), (2, 0xfffffe2, 28), (3, 0xfffffe3, 28),
  (4, 0xfffffe4, 28), (5, 0xfffffe5, 28), (6, 0xfffffe6, 28), (7, 0xfffffe7, 28),
  (8, 0xfffffe8, 28), (9, 0xffffea, 24), (10, 0x3ffffffc, 30), (11, 0xfffffe9, 28),
  (12, 0xfffffea, 28), (13, 0x3ffffffd, 30), (14, 0xfffffeb, 28), (15, 0xfffffec, 28),
  (16, 0xfffffed, 28), (17, 0xfffffee, 28), (18, 0xfffffef, 28), (19, 0xffffff0, 28),
  (20, 0xffffff1, 28), (21, 0xffffff2, 28), (22, 0x3ffffffe, 30), (23, 0xffffff3, 28),
  (24, 0xffffff4, 28), (25, 0xffffff5, 28), (26, 0xffffff6, 28), (27, 0xffffff7, 28),
  (28, 0xffffff8, 28), (29, 0xffffff9, 28), (30, 0xffffffa, 28), (31, 0xffffffb, 28),
  (32, 0x14, 6), (33, 0x3f8, 10), (34, 0x3f9, 10), (35, 0x3fa, 10),
  (36, 0x3fb, 10), (37, 0x3fc, 10), (38, 0x7fa, 11), (39, 0x3fd, 10),
  (40, 0x3fe, 10), (41, 0x3ff, 10), (42, 0x7fb, 11), (43, 0x7fc, 11),
  (44, 0x7fd, 11), (45, 0x7fe, 11), (46, 0x7ff0, 15), (47, 0x7ff1, 15),
  (48, 0x0, 5), (49, 0x1, 5), (50, 0x2, 5), (51, 0x15, 6),
  (52, 0x16, 6), (53, 0x17, 6), (54, 0x18, 6), (55, 0x19, 6),
  (56, 0x1a, 6), (57, 0x1b, 6), (58, 0x1c, 6), (59, 0x1d, 6),
  (60, 0x1e, 6), (61, 0x1f, 6), (62, 0x5c, 7), (63, 0x5d, 7),
  (64, 0x5e, 7), (65, 0x5f, 7), (66, 0x60, 7), (67, 0x61, 7),
  (68, 0x62, 7), (69, 0x63, 7), (70, 0x64, 7), (71, 0x65, 7),
  (72, 0x66, 7), (73, 0x67, 7), (74, 0x68, 7), (75, 0x69, 7),
  (76, 0x6a, 7), (77, 0x6b, 7), (78, 0x6c, 7), (79, 0x6d, 7),
  (80, 0x6e, 7), (81, 0x6f, 7), (82, 0x70, 7), (83, 0x71, 7),
  (84, 0x72, 7), (85, 0x7f1, 11), (86, 0x7f2, 11), (87, 0x7f3, 11),
  (88, 0x7f4, 11), (89, 0x7f5, 11), (90, 0x7f6, 11), (91, 0x7f7, 11),
  (92, 0x7f8, 11), (93, 0x7f9, 11), (94, 0x7fa0, 15), (95, 0x7fa1, 15),
  (96, 0x7fa2, 15), (97, 0x3, 5), (98, 0x20, 6), (99, 0x21, 6),
  (100, 0x22, 6), (101, 0x4, 5), (102, 0x23, 6), (103, 0x24, 6),
  (104, 0x25, 6), (105, 0x5, 5), (106, 0x26, 6), (107, 0x27, 6),
  (108, 0x28, 6), (109, 0x29, 6), (110, 0x2a, 6), (111, 0x2b, 6),
  (112, 0x2c, 6), (113, 0x2d, 6), (114, 0x2e, 6), (115, 0x6, 5),
  (116, 0x7, 5), (117, 0x2f, 6), (118, 0x73, 7), (119, 0x74, 7),
  (120, 0x30, 6), (121, 0x31, 6), (122, 0x32, 6), (123, 0x7fa3, 15),
  (124, 0x7fa4, 15), (125, 0x7fa5, 15), (126, 0x7fa6, 15), (127, 0x7fa7, 15),
  (128, 0x7fa8, 15), (129, 0x7fa9, 15), (130, 0x7faa, 15), (131, 0x7fab, 15),
  (132, 0x7fac, 15), (133, 0x7fad, 15), (134, 0x7fae, 15), (135, 0x7faf, 15),
  (136, 0x7fb0, 15), (137, 0x7fb1, 15), (138, 0x7fb2, 15), (139, 0x7fb3, 15),
  (140, 0x7fb4, 15), (141, 0x7fb5, 15), (142, 0x7fb6, 15), (143, 0x7fb7, 15),
  (144, 0x7fb8, 15), (145, 0x7fb9, 15), (146, 0x7fba, 15), (147, 0x7fbb, 15),
  (148, 0x7fbc, 15), (149, 0x7fbd, 15), (150, 0x7fbe, 15), (151, 0x7fbf, 15),
  (152, 0x7fc0, 15), (153, 0x7fc1, 15), (154, 0x7fc2, 15), (155, 0x7fc3, 15),
  (156, 0x7fc4, 15), (157, 0x7fc5, 15), (158, 0x7fc6, 15), (159, 0x7fc7, 15),
  (160, 0x7fc8, 15), (161, 0x7fc9, 15), (162, 0x7fca, 15), (163, 0x7fcb, 15),
  (164, 0x7fcc, 15), (165, 0x7fcd, 15), (166, 0x7fce, 15), (167, 0x7fcf, 15),
  (168, 0x7fd0, 15), (169, 0x7fd1, 15), (170, 0x7fd2, 15), (171, 0x7fd3, 15),
  (172, 0x7fd4, 15), (173, 0x7fd5, 15), (174, 0x7fd6, 15), (175, 0x7fd7, 15),
  (176, 0x7fd8, 15), (177, 0x7fd9, 15), (178, 0x7fda, 15), (179, 0x7fdb, 15),
  (180, 0x7fdc, 15), (181, 0x7fdd, 15), (182, 0x7fde, 15), (183, 0x7fdf, 15),
  (184, 0x7fe0, 15), (185, 0x7fe1, 15), (186, 0x7fe2, 15), (187, 0x7fe3, 15),
  (188, 0x7fe4, 15), (189, 0x7fe5, 15), (190, 0x7fe6, 15), (191, 0x7fe7, 15),
  (192, 0x7fe8, 15), (193, 0x7fe9, 15), (194, 0x7fea, 15), (195, 0x7feb, 15),
  (196, 0x7fec, 15), (197, 0x7fed, 15), (198, 0x7fee, 15), (199, 0x7fef, 15),
  (200, 0x7ff2, 15), (201, 0x7ff3, 15), (202, 0x7ff4, 15), (203, 0x7ff5, 15),
  (204, 0x7ff6, 15), (205, 0x7ff7, 15), (206, 0x7ff80, 19), (207, 0x7ff81, 19),
  (208, 0x7ff82, 19), (209, 0x7ff83, 19), (210, 0x7ff84, 19), (211, 0x7ff85, 19),
  (212, 0x7ff86, 19), (213, 0x7ff87, 19), (214, 0x7ff88, 19), (215, 0x7ff89, 19),
  (216, 0x7ff8a, 19), (217, 0x7ff8b, 19), (218, 0x7ff8c, 19), (219, 0x7ff8d, 19),
  (220, 0x7ff8e, 19), (221, 0x7ff8f, 19), (222, 0x7ff90, 19), (223, 0x7ff91, 19),
  (224, 0x7ff92, 19), (225, 0x7ff93, 19), (226, 0x7ff94, 19), (227, 0x7ff95, 19),
  (228, 0x7ff96, 19), (229, 0x7ff97, 19), (230, 0x7ff98, 19), (231, 0x7ff99, 19),
  (232, 0x7ff9a, 19), (233, 0x7ff9b, 19), (234, 0x7ff9c, 19), (235, 0x7ff9d, 19),
  (236, 0x7ff9e, 19), (237, 0x7ff9f, 19), (238, 0x7ffa0, 19), (239, 0x7ffa1, 19),
  (240, 0x7ffa2, 19), (241, 0x7ffa3, 19), (242, 0x7ffa4, 19), (243, 0x7ffa5, 19),
  (244, 0x7ffa6, 19), (245, 0x7ffa7, 19), (246, 0x7ffa8, 19), (247, 0x7ffa9, 19),
  (248, 0x7ffaa, 19), (249, 0x7ffab, 19), (250, 0x7ffac, 19), (251, 0x7ffad, 19),
  (252, 0x7ffae, 19), (253, 0x7ffaf, 19), (254, 0x7ffb0, 19), (255, 0x7ffb1, 19),
  (256, 0x7ffb2, 19)]

/-- `HUFFMAN_EOS` (hpack_huffman.cpp): the 30-bit all-ones EOS code. -/
def HUFFMAN_EOS : Nat := 0x3fffffff

/-- `HUFFMAN_CODES.find(ch)`: first-match lookup by symbol. -/
def huffmanCodeLookup (ch : Nat) : Option (Nat × Nat) :=
  (HUFFMAN_CODES.find? (fun e => e.1 == ch)).map (fun e => e.2)

/-- `HUFFMAN_CODES.at(i)` for `i < 256` together with the explicit EOS case
of `initialize_huffman_decode_tree`.  The `(0, 0)` default is unreachable:
every `uint8_t` key is present in the table (`huffmanCodeLookup_isSome`). -/
def huffmanCodeOf (i : Nat) : Nat × Nat :=
  if i = 256 then (HUFFMAN_EOS, 30)
  else (huffmanCodeLookup i).getD (0, 0)

/-!
The decoding trie built by `initialize_huffman_decode_tree` is modelled by
its paths: a node is the pair `(val, len)` of the integer value and length
of the bit string leading to it from the root (most-significant bit
first).  A node exists iff its bit string is a prefix of one of the 257
inserted codes; its `symbol` field is set iff some non-EOS code equals the
bit string exactly; its `is_eos_prefix` flag is set iff the node lies on
the (nonempty) insertion path of the EOS code.
-/

/-- Whether the `len`-bit string `val` is a prefix of the `bits`-bit code
`code`. -/
def isPrefixOfCode (val len code bits : Nat) : Bool :=
  len ≤ bits && code >>> (bits - len) == val

/-- `current_node->children[bit] != nullptr` after descending the bit
string `(val, len)`: the node exists iff some inserted code passes
through it. -/
def huffmanNodeExists (val len : Nat) : Bool :=
  (List.range 257).any fun i =>
    isPrefixOfCode val len (huffmanCodeOf i).1 (huffmanCodeOf i).2

/-- The `symbol` field of the node `(val, len)`: set by the tree builder
for `i ≠ 256` whose code is exactly the node's bit string. -/
def huffmanSymbolAt (val len : Nat) : Option Nat :=
  (List.range 256).find? fun i =>
    (huffmanCodeOf i).2 == len && (huffmanCodeOf i).1 == val

/-- The `is_eos_prefix` flag of the node `(val, len)`: marked on every
node of the EOS insertion path (depth 1..30). -/
def isEosPrefixNode (val len : Nat) : Bool :=
  1 ≤ len && len ≤ 30 && val == HUFFMAN_EOS >>> (30 - len)

/-- Huffman error codes (`enum class HuffmanError` in hpack_huffman.h;
`INTERNAL_ERROR` appears in hpack_huffman.cpp's unreachable
null-root branch). -/
inductive HuffmanError where
  | OK
  | INVALID_INPUT
  | INVALID_PADDING
  | INCOMPLETE_CODE
  | BUFFER_TOO_SMALL
  | INTERNAL_ERROR
  deriving DecidableEq, Repr

/-- Decoder walk state: the output accumulated so far and the bit path
`(val, len)` of `current_node` (root = `(0, 0)`). -/
structure HuffState where
  out : List Nat
  val : Nat
  len : Nat
  deriving DecidableEq, Repr

/-- One iteration of the inner bit loop of `huffman_decode`
(hpack_huffman.cpp lines 197-227), for one bit of the byte at
`byte_idx`; `isLast` is `byte_idx == input.size() - 1`. -/
def huffmanDecodeBit (maxOut : Nat) (isLast : Bool) (bit : Nat) (st : HuffState) :
    Except (List Nat × HuffmanError) HuffState :=
  if st.out.length > maxOut then .error (st.out, .BUFFER_TOO_SMALL)
  else if ¬ huffmanNodeExists (st.val * 2 + bit) (st.len + 1) then
    .error (st.out, .INVALID_INPUT)
  else
    match huffmanSymbolAt (st.val * 2 + bit) (st.len + 1) with
    | some s => .ok ⟨st.out ++ [s], 0, 0⟩
    | none =>
      if isLast ∧ isEosPrefixNode (st.val * 2 + bit) (st.len + 1) then
        .ok ⟨st.out, st.val * 2 + bit, st.len + 1⟩
      else if isLast ∧ ¬ isEosPrefixNode (st.val * 2 + bit) (st.len + 1) then
        .error (st.out, .INVALID_PADDING)
      else
        .ok ⟨st.out, st.val * 2 + bit, st.len + 1⟩

/-- The bits of a byte, most-significant first
(`(b >> bit_idx) & 1` for `bit_idx = 7 .. 0`). -/
def bitsOfByteMSB (b : Nat) : List Nat :=
  [b >>> 7 % 2, b >>> 6 % 2, b >>> 5 % 2, b >>> 4 % 2,
   b >>> 3 % 2, b >>> 2 % 2, b >>> 1 % 2, b % 2]

/-- The inner bit loop of `huffman_decode` over a list of bits. -/
def huffmanDecodeBitsLoop (maxOut : Nat) (isLast : Bool) :
    List Nat → HuffState → Except (List Nat × HuffmanError) HuffState
  | [], st => .ok st
  | bit :: bs, st =>
    match huffmanDecodeBit maxOut isLast bit st with
    | .error e => .error e
    | .ok st' => huffmanDecodeBitsLoop maxOut isLast bs st'

/-- The outer byte loop of `huffman_decode`. -/
def huffmanDecodeBytesLoop (maxOut : Nat) :
    List Nat → HuffState → Except (List Nat × HuffmanError) HuffState
  | [], st => .ok st
  | b :: rest, st =>
    match huffmanDecodeBitsLoop maxOut rest.isEmpty (bitsOfByteMSB (b % 256)) st with
    | .error e => .error e
    | .ok st' => huffmanDecodeBytesLoop maxOut rest st'

/-- Default for `huffman_decode`'s `max_output_length` parameter
(hpack_huffman.h). -/
def HUFFMAN_DECODE_MAX_DEFAULT : Nat := 16384 * 4

/-- `Hpack::huffman_decode` (hpack_huffman.cpp lines 182-242): returns the
decoded octets and an error code, as the C++ pair does. -/
def huffman_decode (input : List Nat) (maxOut : Nat) : List Nat × HuffmanError :=
  match huffmanDecodeBytesLoop maxOut input ⟨[], 0, 0⟩ with
  | .error (out, e) => (out, e)
  | .ok st =>
    if st.len ≠ 0 then
      if ¬ isEosPrefixNode st.val st.len then (st.out, .INVALID_PADDING)
      else (st.out, .OK)
    else (st.out, .OK)

/-!  `Hpack::huffman_encode` (hpack_huffman.cpp lines 138-180). -/

/-- The draining loop `while (bits_in_accumulator >= 8) ...` of
`huffman_encode`, written with an explicit iteration bound (first
argument).  Each iteration requires `bits ≥ 8` and lowers `bits` by 8, so
`bits` itself bounds the number of iterations; the bound-exhausted branch
(`fuel = 0` with `bits ≥ 8`) is unreachable when called with
`fuel = bits`. -/
def huffmanDrainAux : Nat → Nat → Nat → List Nat × Nat
  | 0, _, bits => ([], bits)
  | fuel + 1, acc, bits =>
    if bits ≥ 8 then
      let byte := (acc >>> (bits - 8)) % 256
      let more := huffmanDrainAux fuel acc (bits - 8)
      (byte :: more.1, more.2)
    else ([], bits)

/-- The emitted bytes and remaining bit count of the draining loop. -/
def huffmanDrainLoop (acc bits : Nat) : List Nat × Nat :=
  huffmanDrainAux bits acc bits

/-- The per-character loop of `huffman_encode`: threads the `uint64_t`
accumulator (reduced mod `2 ^ 64`) and the bit count, emitting bytes as
they fill; `none` models the `INVALID_INPUT` early return. -/
def huffmanEncodeRun : List Nat → Nat → Nat → Option (List Nat × Nat × Nat)
  | [], acc, bits => some ([], acc, bits)
  | ch :: rest, acc, bits =>
    match huffmanCodeLookup (ch % 256) with
    | none => none
    | some (code, numBits) =>
      let acc' := ((acc <<< numBits) % 2 ^ 64) ||| code
      let drained := huffmanDrainLoop acc' (bits + numBits)
      match huffmanEncodeRun rest acc' drained.2 with
      | none => none
      | some (out, accFin, bitsFin) => some (drained.1 ++ out, accFin, bitsFin)

/-- `Hpack::huffman_encode`: returns the encoded octets and an error code,
as the C++ pair does.  The run returns the final accumulator so the
EOS-padding epilogue can use it. -/
def huffman_encode (input : List Nat) : List Nat × HuffmanError :=
  match huffmanEncodeRun input 0 0 with
  | none => ([], .INVALID_INPUT)
  | some (out, acc, bits) =>
    if bits > 0 then
      let remaining := 8 - bits
      let eosPad := (HUFFMAN_EOS >>> (30 - remaining)) % 2 ^ remaining
      let accPad := ((acc <<< remaining) % 2 ^ 64) ||| eosPad
      (out ++ [accPad % 256], .OK)
    else (out, .OK)

/-- The `total_bits` accumulation of `get_huffman_encoded_length`;
`none` models the `std::string::npos` early return for a missing symbol. -/
def huffmanTotalBits : List Nat → Option Nat
  | [] => some 0
  | ch :: rest =>
    match huffmanCodeLookup (ch % 256) with
    | none => none
    | some cb =>
      match huffmanTotalBits rest with
      | none => none
      | some t => some (cb.2 + t)

/-- `get_huffman_encoded_length` (hpack_huffman.cpp lines 245-259): sums
the code lengths and rounds up to whole bytes; a missing symbol yields
`std::string::npos` (`2 ^ 64 - 1`). -/
def get_huffman_encoded_length (input : List Nat) : Nat :=
  match huffmanTotalBits input with
  | none => 2 ^ 64 - 1
  | some total => (total + 7) / 8

/-!
## HPACK string primitive (RFC 7541 §5.2)
-/

/-- `HpackEncoder::encode_string` (hpack_encoder.cpp lines 34-62): the
bytes appended for string `str`; Huffman is used only when `tryHuffman`
is set, the encoder succeeds and the coded form is strictly shorter. -/
def encode_string (str : List Nat) (tryHuffman : Bool) : List Nat :=
  let useHuffmanActual :=
    tryHuffman && (huffman_encode str).2 == HuffmanError.OK &&
      (huffman_encode str).1.length < str.length
  let body := if useHuffmanActual then (huffman_encode str).1 else str
  let pat : Nat := if useHuffmanActual then 128 else 0
  encode_integer pat 7 body.length ++ body

/-- `HpackDecoder::decode_string` (hpack_decoder.cpp lines 218-251):
returns the decoded octets and the unconsumed suffix of `data`. -/
def decode_string (data : List Nat) : Except HpackError (List Nat × List Nat) :=
  match data with
  | [] => .error .BUFFER_TOO_SMALL
  | b :: _ =>
    let huffmanEncoded := (b % 256) &&& 128 ≠ 0
    match decode_integer data 7 with
    | .error e => .error e
    | .ok (len, rest) =>
      if len > rest.length then .error .BUFFER_TOO_SMALL
      else
        if huffmanEncoded then
          match huffman_decode (rest.take len) HUFFMAN_DECODE_MAX_DEFAULT with
          | (s, .OK) => .ok (s, rest.drop len)
          | _ => .error .INVALID_HUFFMAN_CODE
        else .ok (rest.take len, rest.drop len)

/-- **C2.** The HPACK string primitive does NOT round-trip: for the
three-octet string `"000"` (octets `[48, 48, 48]`) with `try_huffman`
set, the encoder picks the two-byte Huffman form, and
`HpackDecoder::decode_string` then fails with `INVALID_HUFFMAN_CODE`
instead of returning the string: `huffman_decode`'s in-loop check rejects
any node of the last input byte that is neither a symbol nor an EOS
prefix, even when later bits of that byte would complete a valid code. -/
theorem hpack_string_roundtrip_failure :
    decode_string (encode_string [48, 48, 48] true) =
      .error .INVALID_HUFFMAN_CODE := by
  rfl

/-!
## C10: Huffman encoded-length agreement
-/

/-- Every 8-bit symbol is present in `HUFFMAN_CODES`. -/
lemma huffmanCodeLookup_fin_isSome :
    ∀ b : Fin 256, (huffmanCodeLookup b.1).isSome = true := by
  decide

lemma huffmanCodeLookup_isSome (b : Nat) :
    (huffmanCodeLookup (b % 256)).isSome = true :=
  huffmanCodeLookup_fin_isSome ⟨b % 256, Nat.mod_lt _ (by norm_num)⟩

/-- The draining loop emits one byte per 8 accumulated bits and keeps the
remainder, whenever the iteration bound is large enough. -/
lemma huffmanDrainAux_spec (fuel : Nat) : ∀ acc bits : Nat, bits ≤ 8 * fuel + 7 →
    (huffmanDrainAux fuel acc bits).1.length = bits / 8 ∧
    (huffmanDrainAux fuel acc bits).2 = bits % 8 := by
  induction fuel with
  | zero =>
    intro acc bits hb
    simp only [huffmanDrainAux, List.length_nil]
    omega
  | succ fuel ih =>
    intro acc bits hb
    rw [huffmanDrainAux]
    by_cases h8 : bits ≥ 8
    · simp only [if_pos h8, List.length_cons]
      have := ih acc (bits - 8) (by omega)
      refine ⟨?_, ?_⟩
      · rw [this.1]; omega
      · rw [this.2]; omega
    · simp only [if_neg h8, List.length_nil]
      omega

lemma huffmanDrainLoop_spec (acc bits : Nat) :
    (huffmanDrainLoop acc bits).1.length = bits / 8 ∧
    (huffmanDrainLoop acc bits).2 = bits % 8 :=
  huffmanDrainAux_spec bits acc bits (by omega)

/-- The encoding run always succeeds, and its byte/bit accounting matches
the total code length of the input. -/
lemma huffmanEncodeRun_spec (s : List Nat) : ∀ acc bits : Nat, bits < 8 →
    ∃ out accF bitsF total,
      huffmanEncodeRun s acc bits = some (out, accF, bitsF) ∧
      huffmanTotalBits s = some total ∧
      8 * out.length + bitsF = bits + total ∧ bitsF < 8 := by
  induction s with
  | nil =>
    intro acc bits hb
    exact ⟨[], acc, bits, 0, rfl, rfl, by simp, hb⟩
  | cons ch rest ih =>
    intro acc bits hb
    obtain ⟨⟨code, nb⟩, hcb⟩ :=
      Option.isSome_iff_exists.mp (huffmanCodeLookup_isSome ch)
    have hdrain := huffmanDrainLoop_spec (((acc <<< nb) % 2 ^ 64) ||| code) (bits + nb)
    obtain ⟨out', accF, bitsF, total', hrun, htot, hsum, hlt⟩ :=
      ih (((acc <<< nb) % 2 ^ 64) ||| code)
        ((huffmanDrainLoop (((acc <<< nb) % 2 ^ 64) ||| code) (bits + nb)).2)
        (by rw [hdrain.2]; omega)
    refine ⟨(huffmanDrainLoop (((acc <<< nb) % 2 ^ 64) ||| code) (bits + nb)).1 ++ out',
      accF, bitsF, nb + total', ?_, ?_, ?_, hlt⟩
    · simp only [huffmanEncodeRun, hcb]
      rw [hrun]
    · simp only [huffmanTotalBits, hcb, htot]
    · rw [List.length_append, hdrain.1]
      have h2 := hdrain.2
      omega

/-- **C10.** Huffman encoded-length agreement: for every input octet
string, `huffman_encode` succeeds (`HuffmanError::OK`) and emits exactly
`get_huffman_encoded_length` bytes, i.e. the sum of the table code
lengths of the octets rounded up to whole bytes. -/
theorem huffman_encoded_length_agreement (s : List Nat) :
    (huffman_encode s).2 = .OK ∧
    (huffman_encode s).1.length = get_huffman_encoded_length s := by
  obtain ⟨out, accF, bitsF, total, hrun, htot, hsum, hlt⟩ :=
    huffmanEncodeRun_spec s 0 0 (by norm_num)
  simp only [huffman_encode, get_huffman_encoded_length, hrun, htot]
  by_cases hpos : bitsF > 0
  · simp only [if_pos hpos, List.length_append, List.length_cons, List.length_nil]
    refine ⟨by trivial, by omega⟩
  · simp only [if_neg hpos]
    refine ⟨by trivial, by omega⟩

/-!
## HPACK dynamic table (RFC 7541 §2.3, §4)

State of the dynamic-table portion of `HpackDecoder` / `HpackEncoder`:
`dynamic_table_` (a deque, newest entry first), the `uint32_t` counters
`current_dynamic_table_size_` and `max_dynamic_table_size_` (the
encoder's `own_max_dynamic_table_size_`).  All `uint32_t` arithmetic is
reduced modulo `2 ^ 32` where the C++ can wrap.
-/

/-- `DynamicTableEntry` (hpack_decoder.h): stores its HPACK size
`|name| + |value| + 32` at construction. -/
structure DynamicTableEntry where
  name : List Nat
  value : List Nat
  size : Nat
  deriving DecidableEq, Repr

/-- The `DynamicTableEntry(name, value)` constructor. -/
def mkDynamicTableEntry (name value : List Nat) : DynamicTableEntry :=
  ⟨name, value, name.length + value.length + 32⟩

/-- The dynamic-table state shared by decoder and encoder. -/
structure DynTableState where
  table : List DynamicTableEntry
  current : Nat
  maxSize : Nat
  deriving DecidableEq, Repr

/-- The eviction loop of `evict_from_dynamic_table`:
`while (current + required > max && !table.empty()) { current -= back.size; pop_back(); }`
with the additions, the `size_t → uint32_t` cast of `back.size` and the
unsigned subtraction all taken modulo `2 ^ 32`.  The first argument
bounds the iterations; each iteration removes one entry, so the table
length is an exact bound and the `0` branch with a nonempty table is
unreachable when called with the table's length. -/
def evictAux : Nat → List DynamicTableEntry → Nat → Nat → Nat →
    List DynamicTableEntry × Nat
  | 0, table, current, _, _ => (table, current)
  | fuel + 1, table, current, maxSize, required =>
    if (current + required) % 2 ^ 32 > maxSize ∧ table ≠ [] then
      evictAux fuel table.dropLast
        ((current + 2 ^ 32 - (table.getLastD ⟨[], [], 0⟩).size % 2 ^ 32) % 2 ^ 32)
        maxSize required
    else (table, current)

/-- `HpackDecoder::evict_from_dynamic_table` /
`HpackEncoder::evict_from_dynamic_table` (identical loops). -/
def evict_from_dynamic_table (st : DynTableState) (required : Nat) : DynTableState :=
  let r := evictAux st.table.length st.table st.current st.maxSize required
  ⟨r.1, r.2, st.maxSize⟩

/-- `HpackDecoder::add_to_dynamic_table` (hpack_decoder.cpp lines
254-268). -/
def add_to_dynamic_table (st : DynTableState) (name value : List Nat) :
    DynTableState :=
  let entrySize := name.length + value.length + 32
  if entrySize > st.maxSize then ⟨[], 0, st.maxSize⟩
  else
    let st' := evict_from_dynamic_table st (entrySize % 2 ^ 32)
    ⟨mkDynamicTableEntry name value :: st'.table,
      (st'.current + entrySize % 2 ^ 32) % 2 ^ 32, st.maxSize⟩

/-- `HpackDecoder::set_max_dynamic_table_size` (hpack_decoder.cpp lines
154-158): store the new maximum, then evict with `required = 0`. -/
def set_max_dynamic_table_size (st : DynTableState) (m : Nat) : DynTableState :=
  evict_from_dynamic_table ⟨st.table, st.current, m % 2 ^ 32⟩ 0

/-- `HpackEncoder::add_to_dynamic_table` (hpack_encoder.cpp lines
167-180); it differs from the decoder's only in reading the added size
back from `dynamic_table_.front().size`, the entry just pushed. -/
def encoder_add_to_dynamic_table (st : DynTableState) (name value : List Nat) :
    DynTableState :=
  let entrySize := name.length + value.length + 32
  if entrySize > st.maxSize then ⟨[], 0, st.maxSize⟩
  else
    let st' := evict_from_dynamic_table st (entrySize % 2 ^ 32)
    let newEntry := mkDynamicTableEntry name value
    ⟨newEntry :: st'.table,
      (st'.current + newEntry.size % 2 ^ 32) % 2 ^ 32, st.maxSize⟩

/-- `HpackEncoder::set_own_max_dynamic_table_size` (hpack_encoder.cpp
lines 153-160): returns the `size_changed_for_settings` flag and the new
state. -/
def encoder_set_own_max_dynamic_table_size (st : DynTableState) (m : Nat) :
    Bool × DynTableState :=
  (st.maxSize ≠ m % 2 ^ 32,
   evict_from_dynamic_table ⟨st.table, st.current, m % 2 ^ 32⟩ 0)

/-- The mathematical sum of the stored entry costs of a table. -/
def sumSizes (t : List DynamicTableEntry) : Nat := (t.map (fun e => e.size)).sum

/-- One operation of a dynamic-table history: an insertion
(`add_to_dynamic_table`) or a capacity change
(`set_max_dynamic_table_size`). -/
inductive DynTableOp where
  | insert (name value : List Nat)
  | setMax (m : Nat)

/-- Applying one operation to a decoder's dynamic table. -/
def applyDynTableOp (st : DynTableState) : DynTableOp → DynTableState
  | .insert n v => add_to_dynamic_table st n v
  | .setMax m => set_max_dynamic_table_size st m

/-- Applying one operation to an encoder's dynamic table. -/
def applyEncDynTableOp (st : DynTableState) : DynTableOp → DynTableState
  | .insert n v => encoder_add_to_dynamic_table st n v
  | .setMax m => (encoder_set_own_max_dynamic_table_size st m).2

def applyDynTableOps (st : DynTableState) (ops : List DynTableOp) : DynTableState :=
  ops.foldl applyDynTableOp st

def applyEncDynTableOps (st : DynTableState) (ops : List DynTableOp) : DynTableState :=
  ops.foldl applyEncDynTableOp st

/-- A capacity bound under which the `uint32_t` arithmetic of the table
cannot wrap. -/
def DynTableOpBounded : DynTableOp → Prop
  | .insert _ _ => True
  | .setMax m => m % 2 ^ 32 ≤ 2 ^ 31 - 1

/-- Well-formedness: the stored counter equals the true sum of entry
costs and respects the capacity. -/
def DynTableInv (st : DynTableState) : Prop :=
  sumSizes st.table = st.current ∧ st.current ≤ st.maxSize

/-- Specification of the eviction loop in the wrap-free regime: the
counter tracks the true sum, the loop stops only when the requirement
fits or the table is empty, and the surviving entries are a prefix of
the original (newest-first) table, i.e. the oldest entries are removed
first. -/
lemma evictAux_spec (fuel : Nat) :
    ∀ (table : List DynamicTableEntry) (current maxSize required : Nat),
      table.length ≤ fuel →
      sumSizes table = current →
      current ≤ 2 ^ 31 - 1 →
      required ≤ 2 ^ 31 - 1 →
      sumSizes (evictAux fuel table current maxSize required).1 =
          (evictAux fuel table current maxSize required).2 ∧
      ((evictAux fuel table current maxSize required).2 + required ≤ maxSize ∨
          (evictAux fuel table current maxSize required).1 = []) ∧
      (evictAux fuel table current maxSize required).2 ≤ current ∧
      ∃ k, (evictAux fuel table current maxSize required).1 = table.take k := by
  induction fuel with
  | zero =>
    intro table current maxSize required hlen hsum hcur hreq
    have htab : table = [] := List.length_eq_zero.mp (by omega)
    subst htab
    exact ⟨hsum, Or.inr rfl, le_refl _, 0, rfl⟩
  | succ fuel ih =>
    intro table current maxSize required hlen hsum hcur hreq
    rw [evictAux]
    by_cases hcond : (current + required) % 2 ^ 32 > maxSize ∧ table ≠ []
    · rw [if_pos hcond]
      obtain ⟨hgt, hne⟩ := hcond
      obtain ⟨victim, htab⟩ := List.getLast?_isSome.mpr hne |> Option.isSome_iff_exists.mp
      have hvicD : table.getLastD ⟨[], [], 0⟩ = victim := by
        rw [List.getLastD_eq_getLast?, htab]; rfl
      have hvic : table.getLast hne = victim := by
        have hq := List.getLast?_eq_getLast table hne
        rw [hq] at htab
        exact Option.some_inj.mp htab
      have hsplit : table.dropLast ++ [victim] = table := by
        rw [← hvic]
        exact List.dropLast_append_getLast hne
      have hsumsplit : sumSizes table.dropLast + victim.size = current := by
        rw [← hsum, ← hsplit, sumSizes, sumSizes, List.map_append, List.sum_append]
        simp
      have hvs : victim.size ≤ current := by omega
      have hsub : (current + 2 ^ 32 - victim.size % 2 ^ 32) % 2 ^ 32 =
          current - victim.size := by
        have hvm : victim.size % 2 ^ 32 = victim.size := Nat.mod_eq_of_lt (by omega)
        rw [hvm]; omega
      rw [hvicD, hsub]
      have hlen' : table.dropLast.length ≤ fuel := by
        rw [List.length_dropLast]
        have hpos : 0 < table.length := List.length_pos.mpr hne
        omega
      obtain ⟨h1, h2, h3, k, hk⟩ := ih table.dropLast (current - victim.size)
        maxSize required hlen' (by omega) (by omega) hreq
      refine ⟨h1, h2, by omega, min k (table.length - 1), ?_⟩
      rw [hk, List.dropLast_eq_take, List.take_take]
    · rw [if_neg hcond]
      by_cases hemp : table = []
      · exact ⟨hsum, Or.inr hemp, le_refl _, table.length, (List.take_length table).symm⟩
      · have hfit : (current + required) % 2 ^ 32 ≤ maxSize := by
          rcases not_and_or.mp hcond with h | h
          · omega
          · exact absurd hemp h
        have hfit2 : current + required ≤ maxSize := by omega
        exact ⟨hsum, Or.inl hfit2, le_refl _, table.length, (List.take_length table).symm⟩

/-- Specification of `evict_from_dynamic_table` in the wrap-free
regime. -/
lemma evict_from_dynamic_table_spec (st : DynTableState) (required : Nat)
    (hsum : sumSizes st.table = st.current) (hcur : st.current ≤ 2 ^ 31 - 1)
    (hreq : required ≤ 2 ^ 31 - 1) :
    sumSizes (evict_from_dynamic_table st required).table =
        (evict_from_dynamic_table st required).current ∧
    ((evict_from_dynamic_table st required).current + required ≤ st.maxSize ∨
        (evict_from_dynamic_table st required).table = []) ∧
    (evict_from_dynamic_table st required).current ≤ st.current ∧
    (evict_from_dynamic_table st required).maxSize = st.maxSize ∧
    ∃ k, (evict_from_dynamic_table st required).table = st.table.take k := by
  obtain ⟨h1, h2, h3, hk⟩ := evictAux_spec st.table.length st.table st.current
    st.maxSize required (le_refl _) hsum hcur hreq
  exact ⟨h1, h2, h3, rfl, hk⟩

/-- In the wrap-free regime, a decoder insertion preserves the
well-formedness invariant and the capacity. -/
lemma add_to_dynamic_table_inv (st : DynTableState) (n v : List Nat)
    (hInv : DynTableInv st) (hmax : st.maxSize ≤ 2 ^ 31 - 1) :
    DynTableInv (add_to_dynamic_table st n v) ∧
    (add_to_dynamic_table st n v).maxSize = st.maxSize := by
  obtain ⟨hsum, hcur⟩ := hInv
  by_cases hbig : n.length + v.length + 32 > st.maxSize
  · simp only [add_to_dynamic_table, if_pos hbig]
    refine ⟨⟨?_, ?_⟩, ?_⟩
    · simp [sumSizes]
    · simp
    · simp
  · have hreq : (n.length + v.length + 32) % 2 ^ 32 = n.length + v.length + 32 :=
      Nat.mod_eq_of_lt (by omega)
    simp only [add_to_dynamic_table, if_neg hbig]
    rw [hreq]
    obtain ⟨h1, h2, h3, hm, -⟩ := evict_from_dynamic_table_spec st
      (n.length + v.length + 32) hsum (by omega) (by omega)
    have hfits : (evict_from_dynamic_table st (n.length + v.length + 32)).current
        + (n.length + v.length + 32) ≤ st.maxSize := by
      rcases h2 with h2 | h2
      · omega
      · rw [h2] at h1
        simp only [sumSizes, List.map_nil, List.sum_nil] at h1
        omega
    refine ⟨⟨?_, ?_⟩, by trivial⟩
    · show sumSizes (mkDynamicTableEntry n v ::
          (evict_from_dynamic_table st (n.length + v.length + 32)).table) =
        ((evict_from_dynamic_table st (n.length + v.length + 32)).current +
          (n.length + v.length + 32)) % 2 ^ 32
      rw [sumSizes, List.map_cons, List.sum_cons]
      have hsz : (mkDynamicTableEntry n v).size = n.length + v.length + 32 := rfl
      rw [hsz, Nat.mod_eq_of_lt (by omega)]
      have h1' : sumSizes (evict_from_dynamic_table st (n.length + v.length + 32)).table =
          (evict_from_dynamic_table st (n.length + v.length + 32)).current := h1
      rw [show (List.map (fun e => e.size)
          (evict_from_dynamic_table st (n.length + v.length + 32)).table).sum =
          sumSizes (evict_from_dynamic_table st (n.length + v.length + 32)).table from rfl,
        h1']
      omega
    · show ((evict_from_dynamic_table st (n.length + v.length + 32)).current +
          (n.length + v.length + 32)) % 2 ^ 32 ≤ st.maxSize
      rw [Nat.mod_eq_of_lt (by omega)]
      exact hfits

/-- In the wrap-free regime, a capacity change preserves the invariant. -/
lemma set_max_dynamic_table_size_inv (st : DynTableState) (m : Nat)
    (hInv : DynTableInv st) (hcur31 : st.current ≤ 2 ^ 31 - 1) :
    DynTableInv (set_max_dynamic_table_size st m) ∧
    (set_max_dynamic_table_size st m).maxSize = m % 2 ^ 32 := by
  obtain ⟨hsum, -⟩ := hInv
  rw [show set_max_dynamic_table_size st m =
      evict_from_dynamic_table ⟨st.table, st.current, m % 2 ^ 32⟩ 0 from rfl]
  obtain ⟨h1, h2, h3, hm, -⟩ := evict_from_dynamic_table_spec
    ⟨st.table, st.current, m % 2 ^ 32⟩ 0 hsum hcur31 (by omega)
  have e1 : (⟨st.table, st.current, m % 2 ^ 32⟩ : DynTableState).maxSize =
      m % 2 ^ 32 := rfl
  refine ⟨⟨h1, ?_⟩, by rw [hm, e1]⟩
  rcases h2 with h2 | h2
  · rw [hm, e1]
    omega
  · rw [h2] at h1
    simp only [sumSizes, List.map_nil, List.sum_nil] at h1
    rw [hm, e1]
    omega

/-- The encoder's insertion computes the same state as the decoder's:
`dynamic_table_.front().size` is the size of the entry just pushed. -/
lemma encoder_add_eq (st : DynTableState) (n v : List Nat) :
    encoder_add_to_dynamic_table st n v = add_to_dynamic_table st n v := rfl

/-- The encoder's capacity change computes the same state as the
decoder's. -/
lemma encoder_set_eq (st : DynTableState) (m : Nat) :
    (encoder_set_own_max_dynamic_table_size st m).2 =
      set_max_dynamic_table_size st m := rfl

lemma applyDynTableOps_cons (st : DynTableState) (op : DynTableOp)
    (rest : List DynTableOp) :
    applyDynTableOps st (op :: rest) =
      applyDynTableOps (applyDynTableOp st op) rest := rfl

lemma applyEncDynTableOps_cons (st : DynTableState) (op : DynTableOp)
    (rest : List DynTableOp) :
    applyEncDynTableOps st (op :: rest) =
      applyEncDynTableOps (applyEncDynTableOp st op) rest := rfl

/-- Invariant preservation over a whole operation history (decoder). -/
lemma applyDynTableOps_inv (ops : List DynTableOp) :
    ∀ st : DynTableState, DynTableInv st → st.maxSize ≤ 2 ^ 31 - 1 →
      (∀ op ∈ ops, DynTableOpBounded op) →
      DynTableInv (applyDynTableOps st ops) ∧
      (applyDynTableOps st ops).maxSize ≤ 2 ^ 31 - 1 := by
  induction ops with
  | nil => intro st hInv hmax _; exact ⟨hInv, hmax⟩
  | cons op rest ih =>
    intro st hInv hmax hops
    rw [applyDynTableOps_cons]
    match op with
    | .insert n v =>
      obtain ⟨hInv', hmax'⟩ := add_to_dynamic_table_inv st n v hInv hmax
      exact ih _ hInv' (by rw [show applyDynTableOp st (.insert n v) =
          add_to_dynamic_table st n v from rfl, hmax']; exact hmax)
        (fun o ho => hops o (List.mem_cons_of_mem _ ho))
    | .setMax m =>
      have hbound : m % 2 ^ 32 ≤ 2 ^ 31 - 1 :=
        hops (.setMax m) (List.mem_cons_self _ _)
      obtain ⟨hInv', hmax'⟩ := set_max_dynamic_table_size_inv st m hInv
        (le_trans hInv.2 hmax)
      exact ih _ hInv' (by rw [show applyDynTableOp st (.setMax m) =
          set_max_dynamic_table_size st m from rfl, hmax']; exact hbound)
        (fun o ho => hops o (List.mem_cons_of_mem _ ho))

/-- The encoder's operation history computes the same states. -/
lemma applyEncDynTableOps_eq (ops : List DynTableOp) :
    ∀ st : DynTableState, applyEncDynTableOps st ops = applyDynTableOps st ops := by
  induction ops with
  | nil => intro st; rfl
  | cons op rest ih =>
    intro st
    rw [applyEncDynTableOps_cons, applyDynTableOps_cons, ih]
    match op with
    | .insert n v => rfl
    | .setMax m => rfl

/-- The eviction loop unconditionally keeps a prefix of the
(newest-first) table: entries are only removed from the back, oldest
first. -/
lemma evictAux_prefix (fuel : Nat) :
    ∀ (table : List DynamicTableEntry) (current maxSize required : Nat),
      ∃ k, (evictAux fuel table current maxSize required).1 = table.take k := by
  induction fuel with
  | zero =>
    intro table current maxSize required
    exact ⟨table.length, by rw [evictAux, List.take_length]⟩
  | succ fuel ih =>
    intro table current maxSize required
    rw [evictAux]
    by_cases hcond : (current + required) % 2 ^ 32 > maxSize ∧ table ≠ []
    · rw [if_pos hcond]
      obtain ⟨k, hk⟩ := ih table.dropLast
        ((current + 2 ^ 32 - (table.getLastD ⟨[], [], 0⟩).size % 2 ^ 32) % 2 ^ 32)
        maxSize required
      exact ⟨min k (table.length - 1), by rw [hk, List.dropLast_eq_take, List.take_take]⟩
    · rw [if_neg hcond]
      exact ⟨table.length, (List.take_length table).symm⟩

/-- A kept prefix can always be expressed with its own length as the
count. -/
lemma take_self_length {α : Type} (l : List α) (k : Nat) :
    (l.take k).length = min k l.length ∧ l.take (min k l.length) = l.take k := by
  refine ⟨List.length_take k l, ?_⟩
  rw [List.take_eq_take]
  omega

/-- **C3 (amended).** HPACK dynamic table invariant, in the wrap-free
regime where every capacity in effect is at most `2 ^ 31 - 1` (above
that, the `uint32_t` arithmetic of `evict_from_dynamic_table` and
`add_to_dynamic_table` can wrap, see
`hpack_dynamic_table_overflow_counterexample`): after any sequence of
insertions and capacity changes on an `HpackDecoder` or `HpackEncoder`
table, the stored counter equals the sum of entry costs
(`|name| + |value| + 32` each) and is at most the capacity; the encoder's
operations compute the same states as the decoder's; evictions remove
oldest entries first (the kept entries are a prefix of the newest-first
deque); and inserting a single entry whose cost exceeds the capacity
clears the table entirely and does not store the entry. -/
theorem hpack_dynamic_table_invariant (init : Nat) (ops : List DynTableOp)
    (st : DynTableState) (n v : List Nat) (m : Nat)
    (hinit : init ≤ 2 ^ 31 - 1) (hops : ∀ op ∈ ops, DynTableOpBounded op) :
    (sumSizes (applyDynTableOps ⟨[], 0, init⟩ ops).table =
        (applyDynTableOps ⟨[], 0, init⟩ ops).current ∧
      (applyDynTableOps ⟨[], 0, init⟩ ops).current ≤
        (applyDynTableOps ⟨[], 0, init⟩ ops).maxSize) ∧
    applyEncDynTableOps ⟨[], 0, init⟩ ops = applyDynTableOps ⟨[], 0, init⟩ ops ∧
    ((add_to_dynamic_table st n v).table =
        mkDynamicTableEntry n v ::
          st.table.take ((add_to_dynamic_table st n v).table.length - 1) ∨
      (add_to_dynamic_table st n v).table = []) ∧
    (set_max_dynamic_table_size st m).table =
      st.table.take ((set_max_dynamic_table_size st m).table.length) ∧
    (n.length + v.length + 32 > st.maxSize →
      (add_to_dynamic_table st n v).table = [] ∧
      (add_to_dynamic_table st n v).current = 0) := by
  refine ⟨?_, applyEncDynTableOps_eq ops _, ?_, ?_, ?_⟩
  · exact (applyDynTableOps_inv ops ⟨[], 0, init⟩ ⟨rfl, Nat.zero_le _⟩ hinit hops).1
  · by_cases hbig : n.length + v.length + 32 > st.maxSize
    · right
      simp [add_to_dynamic_table, if_pos hbig]
    · left
      obtain ⟨k, hk⟩ := evictAux_prefix st.table.length st.table st.current
        st.maxSize ((n.length + v.length + 32) % 2 ^ 32)
      have hres : (add_to_dynamic_table st n v).table =
          mkDynamicTableEntry n v :: st.table.take k := by
        simp only [add_to_dynamic_table, if_neg hbig, evict_from_dynamic_table]
        rw [hk]
      rw [hres]
      obtain ⟨hlen, htk⟩ := take_self_length st.table k
      rw [List.length_cons, hlen]
      rw [show min k st.table.length + 1 - 1 = min k st.table.length from rfl, htk]
  · obtain ⟨k, hk⟩ := evictAux_prefix st.table.length st.table st.current
      (m % 2 ^ 32) 0
    have hres : (set_max_dynamic_table_size st m).table = st.table.take k := by
      simp only [set_max_dynamic_table_size, evict_from_dynamic_table]
      exact hk
    rw [hres]
    obtain ⟨hlen, htk⟩ := take_self_length st.table k
    rw [hlen, htk]
  · intro hbig
    simp [add_to_dynamic_table, if_pos hbig]

/-- Witness for `hpack_dynamic_table_invariant` at a small concrete
history and table state. -/
theorem hpack_dynamic_table_invariant_witness :
    (sumSizes (applyDynTableOps ⟨[], 0, 4096⟩
        [DynTableOp.insert [1] [2, 3], DynTableOp.setMax 50]).table =
      (applyDynTableOps ⟨[], 0, 4096⟩
        [DynTableOp.insert [1] [2, 3], DynTableOp.setMax 50]).current ∧
      (applyDynTableOps ⟨[], 0, 4096⟩
        [DynTableOp.insert [1] [2, 3], DynTableOp.setMax 50]).current ≤
      (applyDynTableOps ⟨[], 0, 4096⟩
        [DynTableOp.insert [1] [2, 3], DynTableOp.setMax 50]).maxSize) ∧
    applyEncDynTableOps ⟨[], 0, 4096⟩
        [DynTableOp.insert [1] [2, 3], DynTableOp.setMax 50] =
      applyDynTableOps ⟨[], 0, 4096⟩
        [DynTableOp.insert [1] [2, 3], DynTableOp.setMax 50] ∧
    ((add_to_dynamic_table ⟨[mkDynamicTableEntry [5] [6]], 35, 40⟩ [8] [9]).table =
        mkDynamicTableEntry [8] [9] ::
          [mkDynamicTableEntry [5] [6]].take
            ((add_to_dynamic_table ⟨[mkDynamicTableEntry [5] [6]], 35, 40⟩
                [8] [9]).table.length - 1) ∨
      (add_to_dynamic_table ⟨[mkDynamicTableEntry [5] [6]], 35, 40⟩ [8] [9]).table = []) ∧
    (set_max_dynamic_table_size ⟨[mkDynamicTableEntry [5] [6]], 35, 40⟩ 7).table =
      [mkDynamicTableEntry [5] [6]].take
        ((set_max_dynamic_table_size ⟨[mkDynamicTableEntry [5] [6]], 35, 40⟩
            7).table.length) ∧
    (([8] : List Nat).length + ([9] : List Nat).length + 32 > 40 →
      (add_to_dynamic_table ⟨[mkDynamicTableEntry [5] [6]], 35, 40⟩ [8] [9]).table = [] ∧
      (add_to_dynamic_table ⟨[mkDynamicTableEntry [5] [6]], 35, 40⟩ [8] [9]).current = 0) :=
  hpack_dynamic_table_invariant 4096
    [DynTableOp.insert [1] [2, 3], DynTableOp.setMax 50]
    ⟨[mkDynamicTableEntry [5] [6]], 35, 40⟩ [8] [9] 7
    (by norm_num)
    (by
      intro op hop
      simp only [List.mem_cons, List.not_mem_nil, or_false] at hop
      rcases hop with rfl | rfl
      · trivial
      · show 50 % 2 ^ 32 ≤ 2 ^ 31 - 1
        norm_num)

/-- When the eviction condition is false at entry, the loop is a no-op
(for any iteration bound). -/
lemma evictAux_noop (fuel : Nat) (table : List DynamicTableEntry)
    (current maxSize required : Nat)
    (h : ¬ (current + required) % 2 ^ 32 > maxSize) :
    evictAux fuel table current maxSize required = (table, current) := by
  cases fuel with
  | zero => rfl
  | succ f => rw [evictAux, if_neg (fun hc => h hc.1)]

/-- An insertion that fits and triggers no eviction just pushes the new
entry in front. -/
lemma add_to_dynamic_table_noevict (st : DynTableState) (n v : List Nat)
    (h1 : ¬ n.length + v.length + 32 > st.maxSize)
    (h2 : ¬ (st.current + (n.length + v.length + 32) % 2 ^ 32) % 2 ^ 32 > st.maxSize) :
    add_to_dynamic_table st n v =
      ⟨mkDynamicTableEntry n v :: st.table,
        (st.current + (n.length + v.length + 32) % 2 ^ 32) % 2 ^ 32, st.maxSize⟩ := by
  simp only [add_to_dynamic_table, if_neg h1, evict_from_dynamic_table,
    evictAux_noop st.table.length st.table st.current st.maxSize
      ((n.length + v.length + 32) % 2 ^ 32) h2]

/-- A capacity change that triggers no eviction just stores the new
capacity. -/
lemma set_max_dynamic_table_size_noevict (st : DynTableState) (m : Nat)
    (h : ¬ (st.current + 0) % 2 ^ 32 > m % 2 ^ 32) :
    set_max_dynamic_table_size st m = ⟨st.table, st.current, m % 2 ^ 32⟩ := by
  simp only [set_max_dynamic_table_size, evict_from_dynamic_table,
    evictAux_noop st.table.length st.table st.current (m % 2 ^ 32) 0 h]

/-- **C3 (counterexample to the unamended claim).** With the capacity at
its `uint32_t` maximum and two inserted entries of cost `2 ^ 31` each,
the eviction comparison `current + required > max` wraps modulo `2 ^ 32`
and evicts nothing, so after this sequence of one capacity change and two
insertions the sum of stored entry costs (`2 ^ 32`) exceeds the capacity
(`2 ^ 32 - 1`): `used ≤ capacity` does not hold after every sequence. -/
theorem hpack_dynamic_table_overflow_counterexample :
    sumSizes (applyDynTableOps ⟨[], 0, 4096⟩
        [DynTableOp.setMax (2 ^ 32 - 1),
         DynTableOp.insert (List.replicate (2 ^ 31 - 32) 0) [],
         DynTableOp.insert (List.replicate (2 ^ 31 - 32) 0) []]).table =
      2 ^ 32 ∧
    (applyDynTableOps ⟨[], 0, 4096⟩
        [DynTableOp.setMax (2 ^ 32 - 1),
         DynTableOp.insert (List.replicate (2 ^ 31 - 32) 0) [],
         DynTableOp.insert (List.replicate (2 ^ 31 - 32) 0) []]).maxSize =
      2 ^ 32 - 1 := by
  have hlen : (List.replicate (2 ^ 31 - 32) (0 : Nat)).length = 2 ^ 31 - 32 :=
    List.length_replicate _ _
  have hsz : (List.replicate (2 ^ 31 - 32) (0 : Nat)).length +
      ([] : List Nat).length + 32 = 2 ^ 31 := by
    rw [hlen]; rfl
  have h1 : set_max_dynamic_table_size (⟨[], 0, 4096⟩ : DynTableState)
      (2 ^ 32 - 1) = ⟨[], 0, 2 ^ 32 - 1⟩ := by
    refine (set_max_dynamic_table_size_noevict _ _ (by norm_num)).trans ?_
    rw [DynTableState.mk.injEq]
    exact ⟨rfl, rfl, by norm_num⟩
  have h2 : add_to_dynamic_table (⟨[], 0, 2 ^ 32 - 1⟩ : DynTableState)
      (List.replicate (2 ^ 31 - 32) 0) [] =
      ⟨[mkDynamicTableEntry (List.replicate (2 ^ 31 - 32) 0) []], 2 ^ 31,
        2 ^ 32 - 1⟩ := by
    refine (add_to_dynamic_table_noevict _ _ _
      (by rw [show (⟨[], 0, 2 ^ 32 - 1⟩ : DynTableState).maxSize = 2 ^ 32 - 1 from rfl,
            hsz]
          norm_num)
      (by rw [show (⟨[], 0, 2 ^ 32 - 1⟩ : DynTableState).maxSize = 2 ^ 32 - 1 from rfl,
            show (⟨[], 0, 2 ^ 32 - 1⟩ : DynTableState).current = 0 from rfl, hsz]
          norm_num)).trans ?_
    rw [DynTableState.mk.injEq]
    refine ⟨rfl, ?_, rfl⟩
    rw [show (⟨[], 0, 2 ^ 32 - 1⟩ : DynTableState).current = 0 from rfl, hsz]
    norm_num
  have h3 : add_to_dynamic_table
      (⟨[mkDynamicTableEntry (List.replicate (2 ^ 31 - 32) 0) []], 2 ^ 31,
        2 ^ 32 - 1⟩ : DynTableState)
      (List.replicate (2 ^ 31 - 32) 0) [] =
      ⟨[mkDynamicTableEntry (List.replicate (2 ^ 31 - 32) 0) [],
        mkDynamicTableEntry (List.replicate (2 ^ 31 - 32) 0) []], 0,
        2 ^ 32 - 1⟩ := by
    refine (add_to_dynamic_table_noevict _ _ _
      (by rw [show (⟨[mkDynamicTableEntry (List.replicate (2 ^ 31 - 32) 0) []],
              2 ^ 31, 2 ^ 32 - 1⟩ : DynTableState).maxSize = 2 ^ 32 - 1 from rfl, hsz]
          norm_num)
      (by rw [show (⟨[mkDynamicTableEntry (List.replicate (2 ^ 31 - 32) 0) []],
              2 ^ 31, 2 ^ 32 - 1⟩ : DynTableState).maxSize = 2 ^ 32 - 1 from rfl,
            show (⟨[mkDynamicTableEntry (List.replicate (2 ^ 31 - 32) 0) []],
              2 ^ 31, 2 ^ 32 - 1⟩ : DynTableState).current = 2 ^ 31 from rfl, hsz]
          norm_num)).trans ?_
    rw [DynTableState.mk.injEq]
    refine ⟨rfl, ?_, rfl⟩
    rw [show (⟨[mkDynamicTableEntry (List.replicate (2 ^ 31 - 32) 0) []],
        2 ^ 31, 2 ^ 32 - 1⟩ : DynTableState).current = 2 ^ 31 from rfl, hsz]
    norm_num
  have hentry : (mkDynamicTableEntry (List.replicate (2 ^ 31 - 32) 0) []).size =
      2 ^ 31 := by
    rw [show ∀ n v : List Nat, (mkDynamicTableEntry n v).size =
        n.length + v.length + 32 from fun _ _ => rfl, hlen]
    norm_num
  rw [show ∀ (st : DynTableState) o1 o2 o3, applyDynTableOps st [o1, o2, o3] =
      applyDynTableOp (applyDynTableOp (applyDynTableOp st o1) o2) o3 from
      fun _ _ _ _ => rfl]
  rw [show ∀ (st : DynTableState) m, applyDynTableOp st (DynTableOp.setMax m) =
      set_max_dynamic_table_size st m from fun _ _ => rfl]
  rw [show ∀ (st : DynTableState) n v, applyDynTableOp st (DynTableOp.insert n v) =
      add_to_dynamic_table st n v from fun _ _ _ => rfl]
  rw [show ∀ (st : DynTableState) n v, applyDynTableOp st (DynTableOp.insert n v) =
      add_to_dynamic_table st n v from fun _ _ _ => rfl]
  rw [h1, h2, h3]
  constructor
  · rw [show (⟨[mkDynamicTableEntry (List.replicate (2 ^ 31 - 32) 0) [],
        mkDynamicTableEntry (List.replicate (2 ^ 31 - 32) 0) []], 0,
        2 ^ 32 - 1⟩ : DynTableState).table =
        [mkDynamicTableEntry (List.replicate (2 ^ 31 - 32) 0) [],
         mkDynamicTableEntry (List.replicate (2 ^ 31 - 32) 0) []] from rfl]
    rw [sumSizes, List.map_cons, List.map_cons, List.map_nil, List.sum_cons,
      List.sum_cons, List.sum_nil, hentry]
    norm_num
  · rfl

/-!
## HPACK block decoder (`HpackDecoder::decode`, hpack_decoder.cpp)
-/

/-- `HttpHeader` (http2_types.h): name and value octet strings and the
HPACK `sensitive` flag (default `false`). -/
structure HttpHeader where
  name : List Nat
  value : List Nat
  sensitive : Bool
  deriving DecidableEq, Repr

/-- The 61-entry HPACK static table (RFC 7541 Appendix A), transcribed
from `hpack_static_table.cpp` with names and values as ASCII octets. -/
def STATIC_TABLE : List HttpHeader := [
  ⟨[58, 97, 117, 116, 104, 111, 114, 105, 116, 121], [], false⟩,
  ⟨[58, 109, 101, 116, 104, 111, 100], [71, 69, 84], false⟩,
  ⟨[58, 109, 101, 116, 104, 111, 100], [80, 79, 83, 84], false⟩,
  ⟨[58, 112, 97, 116, 104], [47], false⟩,
  ⟨[58, 112, 97, 116, 104], [47, 105, 110, 100, 101, 120, 46, 104, 116, 109, 108], false⟩,
  ⟨[58, 115, 99, 104, 101, 109, 101], [104, 116, 116, 112], false⟩,
  ⟨[58, 115, 99, 104, 101, 109, 101], [104, 116, 116, 112, 115], false⟩,
  ⟨[58, 115, 116, 97, 116, 117, 115], [50, 48, 48], false⟩,
  ⟨[58, 115, 116, 97, 116, 117, 115], [50, 48, 52], false⟩,
  ⟨[58, 115, 116, 97, 116, 117, 115], [50, 48, 54], false⟩,
  ⟨[58, 115, 116, 97, 116, 117, 115], [51, 48, 52], false⟩,
  ⟨[58, 115, 116, 97, 116, 117, 115], [52, 48, 48], false⟩,
  ⟨[58, 115, 116, 97, 116, 117, 115], [52, 48, 52], false⟩,
  ⟨[58, 115, 116, 97, 116, 117, 115], [53, 48, 48], false⟩,
  ⟨[97, 99, 99, 101, 112, 116, 45, 99, 104, 97, 114, 115, 101, 116], [], false⟩,
  ⟨[97, 99, 99, 101, 112, 116, 45, 101, 110, 99, 111, 100, 105, 110, 103], [103, 122, 105, 112, 44, 32, 100, 101, 102, 108, 97, 116, 101], false⟩,
  ⟨[97, 99, 99, 101, 112, 116, 45, 108, 97, 110, 103, 117, 97, 103, 101], [], false⟩,
  ⟨[97, 99, 99, 101, 112, 116, 45, 114, 97, 110, 103, 101, 115], [], false⟩,
  ⟨[97, 99, 99, 101, 112, 116], [], false⟩,
  ⟨[97, 99, 99, 101, 115, 115, 45, 99, 111, 110, 116, 114, 111, 108, 45, 97, 108, 108, 111, 119, 45, 111, 114, 105, 103, 105, 110], [], false⟩,
  ⟨[97, 103, 101], [], false⟩,
  ⟨[97, 108, 108, 111, 119], [], false⟩,
  ⟨[97, 117, 116, 104, 111, 114, 105, 122, 97, 116, 105, 111, 110], [], false⟩,
  ⟨[99, 97, 99, 104, 101, 45, 99, 111, 110, 116, 114, 111, 108], [], false⟩,
  ⟨[99, 111, 110, 116, 101, 110, 116, 45, 100, 105, 115, 112, 111, 115, 105, 116, 105, 111, 110], [], false⟩,
  ⟨[99, 111, 110, 116, 101, 110, 116, 45, 101, 110, 99, 111, 100, 105, 110, 103], [], false⟩,
  ⟨[99, 111, 110, 116, 101, 110, 116, 45, 108, 97, 110, 103, 117, 97, 103, 101], [], false⟩,
  ⟨[99, 111, 110, 116, 101, 110, 116, 45, 108, 101, 110, 103, 116, 104], [], false⟩,
  ⟨[99, 111, 110, 116, 101, 110, 116, 45, 108, 111, 99, 97, 116, 105, 111, 110], [], false⟩,
  ⟨[99, 111, 110, 116, 101, 110, 116, 45, 114, 97, 110, 103, 101], [], false⟩,
  ⟨[99, 111, 110, 116, 101, 110, 116, 45, 116, 121, 112, 101], [], false⟩,
  ⟨[99, 111, 111, 107, 105, 101], [], false⟩,
  ⟨[100, 97, 116, 101], [], false⟩,
  ⟨[101, 116, 97, 103], [], false⟩,
  ⟨[101, 120, 112, 101, 99, 116], [], false⟩,
  ⟨[101, 120, 112, 105, 114, 101, 115], [], false⟩,
  ⟨[102, 114, 111, 109], [], false⟩,
  ⟨[104, 111, 115, 116], [], false⟩,
  ⟨[105, 102, 45, 109, 97, 116, 99, 104], [], false⟩,
  ⟨[105, 102, 45, 109, 111, 100, 105, 102, 105, 101, 100, 45, 115, 105, 110, 99, 101], [], false⟩,
  ⟨[105, 102, 45, 110, 111, 110, 101, 45, 109, 97, 116, 99, 104], [], false⟩,
  ⟨[105, 102, 45, 114, 97, 110, 103, 101], [], false⟩,
  ⟨[105, 102, 45, 117, 110, 109, 111, 100, 105, 102, 105, 101, 100, 45, 115, 105, 110, 99, 101], [], false⟩,
  ⟨[108, 97, 115, 116, 45, 109, 111, 100, 105, 102, 105, 101, 100], [], false⟩,
  ⟨[108, 105, 110, 107], [], false⟩,
  ⟨[108, 111, 99, 97, 116, 105, 111, 110], [], false⟩,
  ⟨[109, 97, 120, 45, 102, 111, 114, 119, 97, 114, 100, 115], [], false⟩,
  ⟨[112, 114, 111, 120, 121, 45, 97, 117, 116, 104, 101, 110, 116, 105, 99, 97, 116, 101], [], false⟩,
  ⟨[112, 114, 111, 120, 121, 45, 97, 117, 116, 104, 111, 114, 105, 122, 97, 116, 105, 111, 110], [], false⟩,
  ⟨[114, 97, 110, 103, 101], [], false⟩,
  ⟨[114, 101, 102, 101, 114, 101, 114], [], false⟩,
  ⟨[114, 101, 102, 114, 101, 115, 104], [], false⟩,
  ⟨[114, 101, 116, 114, 121, 45, 97, 102, 116, 101, 114], [], false⟩,
  ⟨[115, 101, 114, 118, 101, 114], [], false⟩,
  ⟨[115, 101, 116, 45, 99, 111, 111, 107, 105, 101], [], false⟩,
  ⟨[115, 116, 114, 105, 99, 116, 45, 116, 114, 97, 110, 115, 112, 111, 114, 116, 45, 115, 101, 99, 117, 114, 105, 116, 121], [], false⟩,
  ⟨[116, 114, 97, 110, 115, 102, 101, 114, 45, 101, 110, 99, 111, 100, 105, 110, 103], [], false⟩,
  ⟨[117, 115, 101, 114, 45, 97, 103, 101, 110, 116], [], false⟩,
  ⟨[118, 97, 114, 121], [], false⟩,
  ⟨[118, 105, 97], [], false⟩,
  ⟨[119, 119, 119, 45, 97, 117, 116, 104, 101, 110, 116, 105, 99, 97, 116, 101], [], false⟩
]

/-- `Hpack::get_static_header` (hpack_static_table.cpp): 1-based
lookup. -/
def get_static_header (index : Nat) : Option HttpHeader :=
  if index = 0 ∨ index > STATIC_TABLE.length then none
  else STATIC_TABLE.get? (index - 1)

/-- `HpackDecoder::get_header_from_tables` (hpack_decoder.cpp lines
277-293): static table first (1..61), then the dynamic table (1-based
from the most recent entry); a dynamic entry is returned with the
default `sensitive = false`. -/
def get_header_from_tables (st : DynTableState) (index : Nat) : Option HttpHeader :=
  if index = 0 then none
  else if index ≤ STATIC_TABLE.length then get_static_header index
  else
    if index - STATIC_TABLE.length > st.table.length then none
    else (st.table.get? (index - STATIC_TABLE.length - 1)).map
      (fun e => ⟨e.name, e.value, false⟩)

/-- The name-resolution block shared verbatim by the three literal-field
branches of `HpackDecoder::decode`: index 0 means a literal name string
follows, otherwise the name is taken from the tables. -/
def decodeLiteralName (st : DynTableState) (index : Nat) (data : List Nat) :
    Except HpackError (List Nat × List Nat) :=
  if index = 0 then decode_string data
  else
    match get_header_from_tables st index with
    | none => .error .INDEX_OUT_OF_BOUNDS
    | some h => .ok (h.name, data)

/-- `HpackDecoder::DEFAULT_DYNAMIC_TABLE_SIZE` (hpack_decoder.h). -/
def DEFAULT_DYNAMIC_TABLE_SIZE : Nat := 4096

/-- The `while (!data.empty())` loop of `HpackDecoder::decode`
(hpack_decoder.cpp lines 39-149), dispatching on the pattern of the
first byte.  The first argument bounds the number of iterations; every
iteration consumes at least one byte, so the input length is a
sufficient bound and the bound-exhausted branch is unreachable when
called with `data.length` (as `hpack_decode` does). -/
def hpackDecodeFields : Nat → DynTableState → List HttpHeader → List Nat →
    List HttpHeader × HpackError × DynTableState
  | _, st, headers, [] => (headers, .OK, st)
  | 0, st, headers, _ :: _ => (headers, .OK, st)
  | fuel + 1, st, headers, b :: rest =>
    if (b % 256) &&& 128 = 128 then
      -- Indexed Header Field: 1xxxxxxx
      match decode_integer (b :: rest) 7 with
      | .error e => (headers, e, st)
      | .ok (index, rest1) =>
        if index = 0 then (headers, .INDEX_OUT_OF_BOUNDS, st)
        else
          match get_header_from_tables st index with
          | none => (headers, .INDEX_OUT_OF_BOUNDS, st)
          | some h => hpackDecodeFields fuel st (headers ++ [h]) rest1
    else if (b % 256) &&& 192 = 64 then
      -- Literal Header Field with Incremental Indexing: 01xxxxxx
      match decode_integer (b :: rest) 6 with
      | .error e => (headers, e, st)
      | .ok (index, rest1) =>
        match decodeLiteralName st index rest1 with
        | .error e => (headers, e, st)
        | .ok (name, rest2) =>
          match decode_string rest2 with
          | .error e => (headers, e, st)
          | .ok (value, rest3) =>
            hpackDecodeFields fuel (add_to_dynamic_table st name value)
              (headers ++ [⟨name, value, false⟩]) rest3
    else if (b % 256) &&& 240 = 0 then
      -- Literal Header Field without Indexing: 0000xxxx
      match decode_integer (b :: rest) 4 with
      | .error e => (headers, e, st)
      | .ok (index, rest1) =>
        match decodeLiteralName st index rest1 with
        | .error e => (headers, e, st)
        | .ok (name, rest2) =>
          match decode_string rest2 with
          | .error e => (headers, e, st)
          | .ok (value, rest3) =>
            hpackDecodeFields fuel st (headers ++ [⟨name, value, false⟩]) rest3
    else if (b % 256) &&& 240 = 16 then
      -- Literal Header Field Never Indexed: 0001xxxx
      match decode_integer (b :: rest) 4 with
      | .error e => (headers, e, st)
      | .ok (index, rest1) =>
        match decodeLiteralName st index rest1 with
        | .error e => (headers, e, st)
        | .ok (name, rest2) =>
          match decode_string rest2 with
          | .error e => (headers, e, st)
          | .ok (value, rest3) =>
            hpackDecodeFields fuel st (headers ++ [⟨name, value, true⟩]) rest3
    else if (b % 256) &&& 224 = 32 then
      -- Dynamic Table Size Update: 001xxxxx
      match decode_integer (b :: rest) 5 with
      | .error e => (headers, e, st)
      | .ok (size, rest1) =>
        if headers ≠ [] then (headers, .COMPRESSION_ERROR, st)
        else if size > DEFAULT_DYNAMIC_TABLE_SIZE then (headers, .COMPRESSION_ERROR, st)
        else hpackDecodeFields fuel (set_max_dynamic_table_size st size) headers rest1
    else (headers, .COMPRESSION_ERROR, st)

/-- `HpackDecoder::decode`: run the field loop on a whole header
block. -/
def hpack_decode (st : DynTableState) (data : List Nat) :
    List HttpHeader × HpackError × DynTableState :=
  hpackDecodeFields data.length st [] data

/-- A byte in `[32, 64)` selects exactly the Dynamic Table Size Update
branch of the decode loop's dispatch. -/
lemma dtsu_byte_branch (x : Nat) (h1 : 32 ≤ x) (h2 : x < 64) :
    ¬ x &&& 128 = 128 ∧ ¬ x &&& 192 = 64 ∧ ¬ x &&& 240 = 0 ∧
    ¬ x &&& 240 = 16 ∧ x &&& 224 = 32 := by
  interval_cases x <;> decide

/-- The capacity stored by `set_max_dynamic_table_size` is the
`uint32_t` reduction of its argument. -/
lemma set_max_dynamic_table_size_inv_maxSize (st : DynTableState) (m : Nat) :
    (set_max_dynamic_table_size st m).maxSize = m % 2 ^ 32 := rfl

/-- **C4 (amended).** Dynamic table size update constraints in
`HpackDecoder::decode`: a field matching `001xxxxx` is rejected with
`COMPRESSION_ERROR` if any header field was already decoded earlier in
the block; it is rejected with `COMPRESSION_ERROR` if its value exceeds
the constant `DEFAULT_DYNAMIC_TABLE_SIZE` (4096) — not the configured
`max_dynamic_table_size_` as the unamended claim says, see
`hpack_dtsu_limit_counterexample`; otherwise the capacity is set to the
value and eviction is applied (`set_max_dynamic_table_size`). -/
theorem hpack_dtsu_constraints (fuel : Nat) (st : DynTableState)
    (headers : List HttpHeader) (b : Nat) (rest : List Nat)
    (size : Nat) (rest1 : List Nat)
    (hb1 : 32 ≤ b % 256) (hb2 : b % 256 < 64)
    (hdec : decode_integer (b :: rest) 5 = .ok (size, rest1)) :
    (headers ≠ [] →
      hpackDecodeFields (fuel + 1) st headers (b :: rest) =
        (headers, .COMPRESSION_ERROR, st)) ∧
    (headers = [] → size > DEFAULT_DYNAMIC_TABLE_SIZE →
      hpackDecodeFields (fuel + 1) st headers (b :: rest) =
        (headers, .COMPRESSION_ERROR, st)) ∧
    (headers = [] → size ≤ DEFAULT_DYNAMIC_TABLE_SIZE →
      hpackDecodeFields (fuel + 1) st headers (b :: rest) =
        hpackDecodeFields fuel (set_max_dynamic_table_size st size) headers rest1 ∧
      (set_max_dynamic_table_size st size).maxSize = size % 2 ^ 32) := by
  obtain ⟨c1, c2, c3, c4, c5⟩ := dtsu_byte_branch (b % 256) hb1 hb2
  have hstep : hpackDecodeFields (fuel + 1) st headers (b :: rest) =
      (if headers ≠ [] then (headers, HpackError.COMPRESSION_ERROR, st)
       else if size > DEFAULT_DYNAMIC_TABLE_SIZE then
         (headers, HpackError.COMPRESSION_ERROR, st)
       else hpackDecodeFields fuel (set_max_dynamic_table_size st size)
         headers rest1) := by
    simp only [hpackDecodeFields, if_neg c1, if_neg c2, if_neg c3, if_neg c4,
      if_pos c5, hdec]
  refine ⟨?_, ?_, ?_⟩
  · intro hne
    rw [hstep, if_pos hne]
  · intro hemp hbig
    rw [hstep, if_neg (by simp [hemp]), if_pos hbig]
  · intro hemp hfit
    refine ⟨?_, ?_⟩
    · rw [hstep, if_neg (by simp [hemp]), if_neg (by omega)]
    · exact (set_max_dynamic_table_size_inv_maxSize st size)

/-- Witness for `hpack_dtsu_constraints` at the concrete field
`[63, 161, 62]` (a size update with value 8000, 5-bit prefix). -/
theorem hpack_dtsu_constraints_witness :
    (([] : List HttpHeader) ≠ [] →
      hpackDecodeFields 6 ⟨[], 0, 8192⟩ [] (63 :: [161, 62]) =
        ([], .COMPRESSION_ERROR, ⟨[], 0, 8192⟩)) ∧
    (([] : List HttpHeader) = [] → 8000 > DEFAULT_DYNAMIC_TABLE_SIZE →
      hpackDecodeFields 6 ⟨[], 0, 8192⟩ [] (63 :: [161, 62]) =
        ([], .COMPRESSION_ERROR, ⟨[], 0, 8192⟩)) ∧
    (([] : List HttpHeader) = [] → 8000 ≤ DEFAULT_DYNAMIC_TABLE_SIZE →
      hpackDecodeFields 6 ⟨[], 0, 8192⟩ [] (63 :: [161, 62]) =
        hpackDecodeFields 5 (set_max_dynamic_table_size ⟨[], 0, 8192⟩ 8000) [] [] ∧
      (set_max_dynamic_table_size ⟨[], 0, 8192⟩ 8000).maxSize = 8000 % 2 ^ 32) :=
  hpack_dtsu_constraints 5 ⟨[], 0, 8192⟩ [] 63 [161, 62] 8000 []
    (by norm_num) (by norm_num) (by rfl)

/-- **C4 (counterexample to the unamended claim).** With the decoder's
capacity limit signaled as 8192 (via
`set_max_dynamic_table_size` / `SETTINGS_HEADER_TABLE_SIZE`), the block
consisting of the single size-update field `[0x3F, 0xA1, 0x3E]`
(value 8000, which does not exceed the signaled maximum) is nevertheless
rejected with `COMPRESSION_ERROR` and the capacity is not set: the code
compares the value against the constant 4096, not against the signaled
maximum. -/
theorem hpack_dtsu_limit_counterexample :
    hpack_decode ⟨[], 0, 8192⟩ [63, 161, 62] =
      ([], .COMPRESSION_ERROR, ⟨[], 0, 8192⟩) := by
  decide

/-!
## Streams, settings and connection windows (`http2_stream.cpp`,
`http2_connection.h/.cpp`)

Signed 32-bit quantities are modelled as `Int` together with explicit
conversion helpers where the C++ casts between `uint32_t` and
`int32_t`.
-/

/-- The value of a `uint32_t` (given reduced modulo `2 ^ 32`)
reinterpreted as an `int32_t`. -/
def int32OfUInt32 (x : Nat) : Int :=
  if x % 2 ^ 32 < 2 ^ 31 then (x % 2 ^ 32 : Nat) else (x % 2 ^ 32 : Nat) - 2 ^ 32

/-- `StreamState` (http2_stream.h / RFC 7540 §5.1). -/
inductive StreamState where
  | IDLE
  | RESERVED_LOCAL
  | RESERVED_REMOTE
  | OPEN
  | HALF_CLOSED_LOCAL
  | HALF_CLOSED_REMOTE
  | CLOSED
  deriving DecidableEq, Repr

/-- `Http2Stream`: id, state and the two signed 32-bit flow-control
windows. -/
structure Http2Stream where
  id : Nat
  state : StreamState
  localWindow : Int
  remoteWindow : Int
  deriving DecidableEq, Repr

/-- The `Http2Stream` constructor (http2_stream.cpp lines 6-22): state
`IDLE`, windows initialised from the two `uint32_t` arguments via
`static_cast<int32_t>`. -/
def mkHttp2Stream (id initialLocalWindow initialRemoteWindow : Nat) : Http2Stream :=
  ⟨id, .IDLE, int32OfUInt32 initialLocalWindow, int32OfUInt32 initialRemoteWindow⟩

/-- `ConnectionSettings` (http2_connection.h): the six RFC 7540
settings. -/
structure ConnectionSettings where
  header_table_size : Nat
  enable_push : Bool
  max_concurrent_streams : Nat
  initial_window_size : Nat
  max_frame_size : Nat
  max_header_list_size : Nat
  deriving DecidableEq, Repr

/-- The default-constructed `ConnectionSettings`
(`DEFAULT_HEADER_TABLE_SIZE` 4096, push on, unlimited concurrent
streams (`uint32_t(-1)`), window 65535, frame size 16384, unlimited
header list). -/
def defaultConnectionSettings : ConnectionSettings :=
  ⟨4096, true, 2 ^ 32 - 1, 65535, 16384, 2 ^ 32 - 1⟩

/-- `MAX_ALLOWED_WINDOW_SIZE` (http2_types.h): `2 ^ 31 - 1`. -/
def MAX_ALLOWED_WINDOW_SIZE : Nat := 2 ^ 31 - 1

/-- The stream-creation path of `Http2Connection::get_or_create_stream`
(http2_connection.cpp lines 124-176): a new stream for `streamId` is
constructed with `initial_local_win = remote_settings_.initial_window_size`
and `initial_remote_win = local_settings_.initial_window_size`. -/
def createStream (localSettings remoteSettings : ConnectionSettings)
    (streamId : Nat) : Http2Stream :=
  mkHttp2Stream streamId remoteSettings.initial_window_size
    localSettings.initial_window_size

/-- `Http2Stream::update_remote_window` (http2_stream.cpp lines 34-56):
takes a `window_size_t` (`uint32_t`) increment; a zero increment is a
no-op; an increment whose 64-bit sum with the window exceeds `2 ^ 31 - 1`
fails without changing the window; otherwise the window is increased by
`static_cast<int32_t>(increment)` (an `int32_t` addition, modelled with a
wrap to the signed 32-bit range).  Returns the C++ `bool` and the new
stream. -/
def update_remote_window (s : Http2Stream) (increment : Nat) : Bool × Http2Stream :=
  if increment % 2 ^ 32 = 0 then (true, s)
  else if s.remoteWindow + ((increment % 2 ^ 32 : Nat) : Int) > 2 ^ 31 - 1 then
    (false, s)
  else
    (true, ⟨s.id, s.state,  s.localWindow,
      (s.remoteWindow + int32OfUInt32 increment + 2 ^ 31) % 2 ^ 32 - 2 ^ 31⟩)

/-- `Http2Stream::record_data_sent` (http2_stream.cpp lines 80-87). -/
def record_data_sent (s : Http2Stream) (dataSize : Nat) : Http2Stream :=
  if dataSize = 0 then s
  else ⟨s.id, s.state, s.localWindow,
    (s.remoteWindow - int32OfUInt32 dataSize + 2 ^ 31) % 2 ^ 32 - 2 ^ 31⟩

/-- `DEFAULT_MAX_FRAME_SIZE` and `MAX_ALLOWED_FRAME_SIZE`
(http2_types.h). -/
def DEFAULT_MAX_FRAME_SIZE : Nat := 16384
def MAX_ALLOWED_FRAME_SIZE : Nat := 16777215

/-- The fields of `Http2Connection` (http2_connection.h) that its
embedded member functions read or write.  Outputs that the C++ produces
through the `on_send_*` / frame callbacks are returned alongside the new
state by the functions themselves, not stored here. -/
structure Http2ConnectionState where
  isServer : Bool
  streams : List Http2Stream
  nextClientStreamId : Nat
  lastProcessedStreamId : Nat
  goingAway : Bool
  localSettings : ConnectionSettings
  remoteSettings : ConnectionSettings
  hpackTable : DynTableState
  localConnectionWindow : Int
  remoteConnectionWindow : Int
  expectedContinuationStreamId : Option Nat
  headerBlockBuffer : List Nat
  deriving Repr

/-- A fresh `Http2Connection` (constructor, http2_connection.cpp lines
27-49): default settings, connection windows at
`DEFAULT_INITIAL_WINDOW_SIZE` (65535), HPACK decoder table capacity
`DEFAULT_HEADER_TABLE_SIZE` (4096), no continuation pending. -/
def mkHttp2Connection (isServer : Bool) : Http2ConnectionState :=
  ⟨isServer, [], 1, 0, false, defaultConnectionSettings, defaultConnectionSettings,
    ⟨[], 0, 4096⟩, 65535, 65535, none, []⟩

/-- The per-stream body of the `SETTINGS_INITIAL_WINDOW_SIZE` loop of
`apply_remote_setting` (http2_connection.cpp lines 474-489): non-idle,
non-closed streams get `update_remote_window(delta)`, the rest are left
alone; the returned `bool` is discarded. -/
def initialWindowAdjust (oldInitial value : Nat) (s : Http2Stream) : Http2Stream :=
  if s.state ≠ .IDLE ∧ s.state ≠ .CLOSED then
    (update_remote_window s
      (((int32OfUInt32 value - int32OfUInt32 oldInitial) % 2 ^ 32).toNat)).2
  else s

/-- `Http2Connection::apply_remote_setting` (http2_connection.cpp lines
430-491) for a received setting `(ident, value)`.  For
`SETTINGS_INITIAL_WINDOW_SIZE` (0x4) the delta is computed in
`int32_t` and passed to `Http2Stream::update_remote_window`, whose
`window_size_t` parameter reinterprets it as a `uint32_t`; the returned
`bool` is discarded, exactly as in the source. -/
def apply_remote_setting (conn : Http2ConnectionState) (ident value : Nat) :
    Http2ConnectionState :=
  if ident = 1 then -- SETTINGS_HEADER_TABLE_SIZE
    { conn with
      remoteSettings := { conn.remoteSettings with header_table_size := value },
      hpackTable := set_max_dynamic_table_size conn.hpackTable value }
  else if ident = 2 then -- SETTINGS_ENABLE_PUSH
    if value > 1 then conn
    else { conn with
      remoteSettings := { conn.remoteSettings with enable_push := value == 1 } }
  else if ident = 3 then -- SETTINGS_MAX_CONCURRENT_STREAMS
    { conn with
      remoteSettings := { conn.remoteSettings with max_concurrent_streams := value } }
  else if ident = 4 then -- SETTINGS_INITIAL_WINDOW_SIZE
    if value > MAX_ALLOWED_WINDOW_SIZE then conn
    else
      { conn with
        remoteSettings := { conn.remoteSettings with initial_window_size := value },
        streams := conn.streams.map
          (initialWindowAdjust conn.remoteSettings.initial_window_size value) }
  else if ident = 5 then -- SETTINGS_MAX_FRAME_SIZE
    if value < DEFAULT_MAX_FRAME_SIZE ∨ value > MAX_ALLOWED_FRAME_SIZE then conn
    else { conn with
      remoteSettings := { conn.remoteSettings with max_frame_size := value } }
  else if ident = 6 then -- SETTINGS_MAX_HEADER_LIST_SIZE
    { conn with
      remoteSettings := { conn.remoteSettings with max_header_list_size := value } }
  else conn

/-- Behaviour of `update_remote_window` when the `uint32_t` increment is
obtained by converting a signed delta `δ` with `|δ| < 2 ^ 31` (the
`SETTINGS_INITIAL_WINDOW_SIZE` path): the window grows by `δ` exactly
when `δ ≥ 0` and the result stays within `2 ^ 31 - 1`; otherwise — in
particular for every negative `δ` that would not underflow — the stream
is returned unchanged, because a negative `δ` converts to a `uint32_t`
of at least `2 ^ 31` and trips the overflow guard. -/
theorem update_remote_window_delta (s : Http2Stream) (δ : Int)
    (hδ1 : -(2 ^ 31) < δ) (hδ2 : δ < 2 ^ 31)
    (hw2 : s.remoteWindow ≤ 2 ^ 31 - 1)
    (hno : -(2 ^ 31) ≤ s.remoteWindow + δ) :
    (update_remote_window s ((δ % 2 ^ 32).toNat)).2 =
      if 0 ≤ δ ∧ s.remoteWindow + δ ≤ 2 ^ 31 - 1 then
        ⟨s.id, s.state, s.localWindow, s.remoteWindow + δ⟩
      else s := by
  obtain ⟨sid, sst, slw, srw⟩ := s
  dsimp only at hw2 hno ⊢
  simp only [update_remote_window, int32OfUInt32]
  split_ifs <;> dsimp only <;>
    first
      | rfl
      | (simp only [Http2Stream.mk.injEq, eq_self_iff_true, true_and]; omega)

/-- A connection (fresh, client side) holding a single `OPEN` stream
with send window 65535 and the default remote
`initial_window_size` 65535, used to exercise
`apply_remote_setting` on `SETTINGS_INITIAL_WINDOW_SIZE`. -/
def c6Conn : Http2ConnectionState :=
  { mkHttp2Connection false with streams := [⟨1, .OPEN, 100, 65535⟩] }

/-- C6 counterexample: lowering the peer's `INITIAL_WINDOW_SIZE` from
65535 to 65534 (a delta of `-1`) leaves the `OPEN` stream's send window
at 65535 instead of adjusting it to 65534 — and records no error of any
kind.  The negative `int32_t` delta is implicitly converted to the
`uint32_t` 4294967295 at the call to `update_remote_window`, whose
overflow guard then fails, and `apply_remote_setting` discards the
returned `false`. -/
theorem apply_remote_setting_negative_delta_counterexample :
    c6Conn.remoteSettings.initial_window_size = 65535 ∧
    (apply_remote_setting c6Conn 4 65534).remoteSettings.initial_window_size =
      65534 ∧
    (apply_remote_setting c6Conn 4 65534).streams = [⟨1, .OPEN, 100, 65535⟩] :=
  ⟨rfl, rfl, rfl⟩

/-- C6 (amended): when `apply_remote_setting` processes
`SETTINGS_INITIAL_WINDOW_SIZE` (identifier 4) with a legal new value
(`≤ 2 ^ 31 - 1`), writing `δ` for the signed difference between the new
and old values: the setting is stored and every stream is replaced by
`initialWindowAdjust old value` applied to it; a stream in `IDLE` or
`CLOSED` state is unchanged; for a stream `s` in any other state whose
send window is a legal window value, (a) if `δ ≥ 0` and
`s.remoteWindow + δ ≤ 2 ^ 31 - 1` the send window becomes
`s.remoteWindow + δ` and all other fields are unchanged, (b) if
`s.remoteWindow + δ > 2 ^ 31 - 1` the stream is entirely unchanged and
no error is recorded, and (c) if `δ < 0` and the adjusted window would
not underflow `-(2 ^ 31)` the stream is again entirely unchanged with
no error recorded: negative deltas are never applied, because the
`int32_t` delta is converted to a `uint32_t` of at least `2 ^ 31` which
trips the overflow guard of `update_remote_window`. -/
theorem apply_remote_setting_initial_window_delta
    (conn : Http2ConnectionState) (value : Nat) (s t : Http2Stream)
    (hv : value ≤ 2 ^ 31 - 1)
    (hold : conn.remoteSettings.initial_window_size ≤ 2 ^ 31 - 1)
    (hw1 : -(2 ^ 31) ≤ s.remoteWindow) (hw2 : s.remoteWindow ≤ 2 ^ 31 - 1)
    (hs1 : s.state ≠ .IDLE) (hs2 : s.state ≠ .CLOSED)
    (ht : t.state = .IDLE ∨ t.state = .CLOSED) :
    (apply_remote_setting conn 4 value).remoteSettings.initial_window_size =
      value ∧
    (apply_remote_setting conn 4 value).streams = conn.streams.map
      (initialWindowAdjust conn.remoteSettings.initial_window_size value) ∧
    initialWindowAdjust conn.remoteSettings.initial_window_size value t = t ∧
    (0 ≤ (value : Int) - (conn.remoteSettings.initial_window_size : Int) →
      s.remoteWindow + ((value : Int) -
          (conn.remoteSettings.initial_window_size : Int)) ≤ 2 ^ 31 - 1 →
      initialWindowAdjust conn.remoteSettings.initial_window_size value s =
        ⟨s.id, s.state, s.localWindow, s.remoteWindow + ((value : Int) -
          (conn.remoteSettings.initial_window_size : Int))⟩) ∧
    (s.remoteWindow + ((value : Int) -
        (conn.remoteSettings.initial_window_size : Int)) > 2 ^ 31 - 1 →
      initialWindowAdjust conn.remoteSettings.initial_window_size value s = s) ∧
    ((value : Int) - (conn.remoteSettings.initial_window_size : Int) < 0 →
      -(2 ^ 31) ≤ s.remoteWindow + ((value : Int) -
        (conn.remoteSettings.initial_window_size : Int)) →
      initialWindowAdjust conn.remoteSettings.initial_window_size value s = s) := by
  have h4 : ¬ value > MAX_ALLOWED_WINDOW_SIZE := by
    simp only [MAX_ALLOWED_WINDOW_SIZE]; omega
  have happ : apply_remote_setting conn 4 value =
      if value > MAX_ALLOWED_WINDOW_SIZE then conn
      else
        { conn with
          remoteSettings :=
            { conn.remoteSettings with initial_window_size := value },
          streams := conn.streams.map
            (initialWindowAdjust conn.remoteSettings.initial_window_size value) } :=
    rfl
  rw [if_neg h4] at happ
  have hcast : int32OfUInt32 value -
      int32OfUInt32 conn.remoteSettings.initial_window_size =
      (value : Int) - (conn.remoteSettings.initial_window_size : Int) := by
    simp only [int32OfUInt32]
    rw [Nat.mod_eq_of_lt (show value < 2 ^ 32 by omega),
      Nat.mod_eq_of_lt
        (show conn.remoteSettings.initial_window_size < 2 ^ 32 by omega),
      if_pos (show value < 2 ^ 31 by omega),
      if_pos (show conn.remoteSettings.initial_window_size < 2 ^ 31 by omega)]
  have hadj : ∀ u : Http2Stream, u.state ≠ .IDLE → u.state ≠ .CLOSED →
      initialWindowAdjust conn.remoteSettings.initial_window_size value u =
      (update_remote_window u
        ((((value : Int) -
          (conn.remoteSettings.initial_window_size : Int)) % 2 ^ 32).toNat)).2 := by
    intro u hu1 hu2
    rw [initialWindowAdjust, if_pos ⟨hu1, hu2⟩, hcast]
  refine ⟨by rw [happ], by rw [happ], ?_, ?_, ?_, ?_⟩
  · rw [initialWindowAdjust, if_neg]; tauto
  · intro hd1 hd2
    rw [hadj s hs1 hs2,
      update_remote_window_delta s _ (by omega) (by omega) hw2 (by omega),
      if_pos ⟨hd1, hd2⟩]
  · intro hd
    rw [hadj s hs1 hs2,
      update_remote_window_delta s _ (by omega) (by omega) hw2 (by omega),
      if_neg]
    omega
  · intro hd1 hd2
    rw [hadj s hs1 hs2,
      update_remote_window_delta s _ (by omega) (by omega) hw2 hd2,
      if_neg]
    omega

/-- C5: the windows of a newly created stream are initialised the wrong
way round.  With our own (local) `INITIAL_WINDOW_SIZE` set to 1000 and
the peer's (remote) one to 2000, `get_or_create_stream` builds the new
stream with send window (`remote_window_size_`) 1000 — our own setting
— and receive window (`local_window_size_`) 2000 — the peer's setting.
The claim (and RFC 7540 §6.5.2,  §6.9.2) requires the opposite: the
send window must start at the peer's advertised value and the receive
window at our own; `apply_remote_setting` indeed adjusts
`remote_window_size_` by the delta of the *remote* setting, so the code
is also internally inconsistent. -/
theorem new_stream_window_initialization_swapped :
    (createStream ⟨4096, true, 2 ^ 32 - 1, 1000, 16384, 2 ^ 32 - 1⟩
        ⟨4096, true, 2 ^ 32 - 1, 2000, 16384, 2 ^ 32 - 1⟩ 1).remoteWindow =
      1000 ∧
    (createStream ⟨4096, true, 2 ^ 32 - 1, 1000, 16384, 2 ^ 32 - 1⟩
        ⟨4096, true, 2 ^ 32 - 1, 2000, 16384, 2 ^ 32 - 1⟩ 1).localWindow =
      2000 ∧
    (createStream ⟨4096, true, 2 ^ 32 - 1, 1000, 16384, 2 ^ 32 - 1⟩
        ⟨4096, true, 2 ^ 32 - 1, 2000, 16384, 2 ^ 32 - 1⟩ 1).state =
      .IDLE := by
  refine ⟨rfl, rfl, rfl⟩

/-- Witness for the amended C6 theorem: raising the peer's
`INITIAL_WINDOW_SIZE` from the default 65535 to 70000 (`δ = 4465`) on a
fresh client connection moves an `OPEN` stream's send window from 65535
to 70000, and leaves an `IDLE` stream alone. -/
theorem apply_remote_setting_initial_window_delta_witness :
    (70000 ≤ 2 ^ 31 - 1 ∧
      (mkHttp2Connection false).remoteSettings.initial_window_size ≤
        2 ^ 31 - 1 ∧
      -(2 ^ 31) ≤ (Http2Stream.mk 1 .OPEN 100 65535).remoteWindow ∧
      (Http2Stream.mk 1 .OPEN 100 65535).remoteWindow ≤ 2 ^ 31 - 1 ∧
      (Http2Stream.mk 1 .OPEN 100 65535).state ≠ .IDLE ∧
      (Http2Stream.mk 1 .OPEN 100 65535).state ≠ .CLOSED ∧
      ((Http2Stream.mk 2 .IDLE 7 8).state = .IDLE ∨
        (Http2Stream.mk 2 .IDLE 7 8).state = .CLOSED)) ∧
    ((apply_remote_setting (mkHttp2Connection false) 4
        70000).remoteSettings.initial_window_size = 70000 ∧
      (apply_remote_setting (mkHttp2Connection false) 4 70000).streams =
        (mkHttp2Connection false).streams.map
          (initialWindowAdjust
            (mkHttp2Connection false).remoteSettings.initial_window_size
            70000) ∧
      initialWindowAdjust
          (mkHttp2Connection false).remoteSettings.initial_window_size 70000
          (Http2Stream.mk 2 .IDLE 7 8) = Http2Stream.mk 2 .IDLE 7 8 ∧
      (0 ≤ (70000 : Int) -
          ((mkHttp2Connection false).remoteSettings.initial_window_size : Int) →
        (Http2Stream.mk 1 .OPEN 100 65535).remoteWindow + ((70000 : Int) -
          ((mkHttp2Connection false).remoteSettings.initial_window_size :
            Int)) ≤ 2 ^ 31 - 1 →
        initialWindowAdjust
            (mkHttp2Connection false).remoteSettings.initial_window_size 70000
            (Http2Stream.mk 1 .OPEN 100 65535) =
          ⟨(Http2Stream.mk 1 .OPEN 100 65535).id,
            (Http2Stream.mk 1 .OPEN 100 65535).state,
            (Http2Stream.mk 1 .OPEN 100 65535).localWindow,
            (Http2Stream.mk 1 .OPEN 100 65535).remoteWindow + ((70000 : Int) -
              ((mkHttp2Connection false).remoteSettings.initial_window_size :
                Int))⟩) ∧
      ((Http2Stream.mk 1 .OPEN 100 65535).remoteWindow + ((70000 : Int) -
          ((mkHttp2Connection false).remoteSettings.initial_window_size :
            Int)) > 2 ^ 31 - 1 →
        initialWindowAdjust
            (mkHttp2Connection false).remoteSettings.initial_window_size 70000
            (Http2Stream.mk 1 .OPEN 100 65535) =
          Http2Stream.mk 1 .OPEN 100 65535) ∧
      ((70000 : Int) -
          ((mkHttp2Connection false).remoteSettings.initial_window_size :
            Int) < 0 →
        -(2 ^ 31) ≤ (Http2Stream.mk 1 .OPEN 100 65535).remoteWindow +
          ((70000 : Int) -
            ((mkHttp2Connection false).remoteSettings.initial_window_size :
              Int)) →
        initialWindowAdjust
            (mkHttp2Connection false).remoteSettings.initial_window_size 70000
            (Http2Stream.mk 1 .OPEN 100 65535) =
          Http2Stream.mk 1 .OPEN 100 65535)) :=
  ⟨⟨by decide, by decide, by decide, by decide, by decide, by decide,
      by decide⟩,
    apply_remote_setting_initial_window_delta (mkHttp2Connection false) 70000
      (Http2Stream.mk 1 .OPEN 100 65535) (Http2Stream.mk 2 .IDLE 7 8)
      (by decide) (by decide) (by decide) (by decide) (by decide) (by decide)
      (by decide)⟩

/-!
## The frame parser (cpp_lib/http2_parser.cpp)

Wire bytes are `Nat`s reduced modulo 256 at every numeric read.  The
parser's interaction with its `Http2Connection` context — continuation
state, header block buffer, HPACK decoder table, remote settings — is
threaded through `Http2ConnectionState`.  The C++ additionally stores
the initiating HEADERS / PUSH_PROMISE frame of a continuation sequence
(`pending_header_initiator_frame_`) only so that
`populate_pending_headers` can fill in its header list; nothing reads
that copy afterwards, so it is not modelled.  The frame sink
(`raw_frame_parsed_cb_`) is modelled by the list of frames delivered.
-/

/-- `ParserError` (http2_parser.h lines 18-36). -/
inductive ParserError where
  | OK
  | BUFFER_TOO_SMALL
  | INVALID_FRAME_TYPE
  | INVALID_FRAME_SIZE
  | INVALID_FRAME_FLAGS
  | INVALID_STREAM_ID
  | INVALID_PADDING
  | INVALID_PRIORITY_DATA
  | INVALID_SETTINGS_VALUE
  | INVALID_WINDOW_UPDATE_INCREMENT
  | HPACK_DECOMPRESSION_FAILED
  | PROTOCOL_ERROR
  | INTERNAL_ERROR
  | CONTINUATION_EXPECTED
  | CONTINUATION_WRONG_STREAM
  | FRAME_SIZE_LIMIT_EXCEEDED
  deriving DecidableEq, Repr

/-- `read_uint24_big_endian`. -/
def read_uint24_big_endian (b : List Nat) : Nat :=
  (b.getD 0 0 % 256) * 2 ^ 16 + (b.getD 1 0 % 256) * 2 ^ 8 + b.getD 2 0 % 256

/-- `read_uint32_big_endian`. -/
def read_uint32_big_endian (b : List Nat) : Nat :=
  (b.getD 0 0 % 256) * 2 ^ 24 + (b.getD 1 0 % 256) * 2 ^ 16 +
    (b.getD 2 0 % 256) * 2 ^ 8 + b.getD 3 0 % 256

/-- `read_uint16_big_endian`. -/
def read_uint16_big_endian (b : List Nat) : Nat :=
  (b.getD 0 0 % 256) * 2 ^ 8 + b.getD 1 0 % 256

/-- `FrameHeader` (http2_types.h): 24-bit length, raw type byte, flag
byte and 31-bit stream id. -/
structure FrameHeader where
  length : Nat
  type : Nat
  flags : Nat
  streamId : Nat
  deriving DecidableEq, Repr

/-- A default-constructed (`{}`) frame header, returned inside errored
parses. -/
def emptyFrameHeader : FrameHeader := ⟨0, 0, 0, 0⟩

/-- `Http2Parser::read_frame_header` on at least 9 buffered bytes; the
stream id masks out the reserved bit (`& 0x7FFFFFFF`, i.e.
`% 2 ^ 31`). -/
def read_frame_header (b : List Nat) : FrameHeader :=
  ⟨read_uint24_big_endian b, b.getD 3 0 % 256, b.getD 4 0 % 256,
    read_uint32_big_endian (b.drop 5) % 2 ^ 31⟩

/-- `AnyHttp2Frame`: the ten RFC 7540 frame kinds with the fields the
parser fills in.  `Option` mirrors the C++ `std::optional` fields
(`none` = flag absent / field never set). -/
inductive AnyHttp2Frame where
  | data (header : FrameHeader) (padLength : Option Nat) (payload : List Nat)
  | headers (header : FrameHeader) (padLength : Option Nat)
      (priorityData : Option (Nat × Nat × Nat)) (decoded : List HttpHeader)
  | priority (header : FrameHeader) (exclusive : Nat) (dependency : Nat)
      (weight : Nat)
  | rst_stream (header : FrameHeader) (errorCode : Nat)
  | settings (header : FrameHeader) (entries : List (Nat × Nat))
  | push_promise (header : FrameHeader) (padLength : Option Nat)
      (promisedStreamId : Nat) (decoded : List HttpHeader)
  | ping (header : FrameHeader) (opaqueData : List Nat)
  | goaway (header : FrameHeader) (lastStreamId : Nat) (errorCode : Nat)
      (debugData : List Nat)
  | window_update (header : FrameHeader) (increment : Nat)
  | continuation (header : FrameHeader) (fragment : List Nat)
  deriving DecidableEq, Repr

/-- `parse_data_payload` (cpp_lib/http2_parser.cpp lines 221-246).
Flag `PADDED = 0x8`. -/
def parse_data_payload (header : FrameHeader) (payload : List Nat) :
    AnyHttp2Frame × ParserError :=
  if header.streamId = 0 then
    (.data emptyFrameHeader none [], .INVALID_STREAM_ID)
  else if header.flags &&& 8 ≠ 0 then
    if payload = [] then (.data emptyFrameHeader none [], .INVALID_PADDING)
    else if payload.getD 0 0 % 256 > payload.length - 1 then
      (.data emptyFrameHeader none [], .INVALID_PADDING)
    else
      (.data header (some (payload.getD 0 0 % 256))
        ((payload.drop 1).take (payload.length - 1 - payload.getD 0 0 % 256)),
        .OK)
  else (.data header (some 0) payload, .OK)

/-- `parse_headers_payload` (cpp_lib/http2_parser.cpp lines 248-320),
including the continuation bookkeeping it performs on the connection.
Flags `PADDED = 0x8`, `PRIORITY = 0x20`, `END_HEADERS = 0x4`.  The
header block buffer is cleared unless a continuation sequence for this
very stream is in progress; the fragment is appended; with
`END_HEADERS` the whole buffer is HPACK-decoded (updating the decoder
table) and the continuation state is reset, otherwise a CONTINUATION
for this stream becomes expected. -/
def parse_headers_payload (conn : Http2ConnectionState)
    (header : FrameHeader) (payload : List Nat) :
    (AnyHttp2Frame × ParserError) × Http2ConnectionState :=
  if header.streamId = 0 then
    ((.headers emptyFrameHeader none none [], .INVALID_STREAM_ID), conn)
  else if header.flags &&& 8 ≠ 0 ∧ payload = [] then
    ((.headers emptyFrameHeader none none [], .INVALID_PADDING), conn)
  else if header.flags &&& 8 ≠ 0 ∧ payload.getD 0 0 % 256 > payload.length - 1 then
    ((.headers emptyFrameHeader none none [], .INVALID_PADDING), conn)
  else
    let pad : Nat := if header.flags &&& 8 ≠ 0 then payload.getD 0 0 % 256 else 0
    let padOpt : Option Nat := if header.flags &&& 8 ≠ 0 then some pad else none
    let off0 : Nat := if header.flags &&& 8 ≠ 0 then 1 else 0
    if header.flags &&& 32 ≠ 0 ∧ payload.length - off0 < 5 then
      ((.headers emptyFrameHeader none none [], .INVALID_PRIORITY_DATA), conn)
    else
      let prio : Option (Nat × Nat × Nat) :=
        if header.flags &&& 32 ≠ 0 then
          some ((read_uint32_big_endian (payload.drop off0) >>> 31) &&& 1,
            read_uint32_big_endian (payload.drop off0) % 2 ^ 31,
            payload.getD (off0 + 4) 0 % 256)
        else none
      let off : Nat := if header.flags &&& 32 ≠ 0 then off0 + 5 else off0
      if payload.length < off + pad then
        ((.headers emptyFrameHeader none none [], .INVALID_PADDING), conn)
      else
        let frag := (payload.drop off).take (payload.length - off - pad)
        let conn1 :=
          if conn.expectedContinuationStreamId = some header.streamId then conn
          else { conn with headerBlockBuffer := [] }
        let conn2 :=
          { conn1 with headerBlockBuffer := conn1.headerBlockBuffer ++ frag }
        if header.flags &&& 4 ≠ 0 then
          match hpack_decode conn2.hpackTable conn2.headerBlockBuffer with
          | (decoded, HpackError.OK, table2) =>
              ((.headers header padOpt prio decoded, .OK),
                { conn2 with
                  hpackTable := table2
                  headerBlockBuffer := []
                  expectedContinuationStreamId := none })
          | (_, _, table2) =>
              ((.headers emptyFrameHeader none none [],
                  .HPACK_DECOMPRESSION_FAILED),
                { conn2 with
                  hpackTable := table2
                  headerBlockBuffer := []
                  expectedContinuationStreamId := none })
        else
          ((.headers header padOpt prio [], .OK),
            { conn2 with expectedContinuationStreamId := some header.streamId })

/-- `parse_priority_payload` (cpp_lib/http2_parser.cpp lines 322-335). -/
def parse_priority_payload (header : FrameHeader) (payload : List Nat) :
    AnyHttp2Frame × ParserError :=
  if header.length ≠ 5 then
    (.priority emptyFrameHeader 0 0 0, .INVALID_FRAME_SIZE)
  else if header.streamId = 0 then
    (.priority emptyFrameHeader 0 0 0, .INVALID_STREAM_ID)
  else
    (.priority header ((read_uint32_big_endian payload >>> 31) &&& 1)
      (read_uint32_big_endian payload % 2 ^ 31) (payload.getD 4 0 % 256), .OK)

/-- `parse_rst_stream_payload` (cpp_lib/http2_parser.cpp lines 337-345). -/
def parse_rst_stream_payload (header : FrameHeader) (payload : List Nat) :
    AnyHttp2Frame × ParserError :=
  if header.length ≠ 4 then
    (.rst_stream emptyFrameHeader 0, .INVALID_FRAME_SIZE)
  else if header.streamId = 0 then
    (.rst_stream emptyFrameHeader 0, .INVALID_STREAM_ID)
  else (.rst_stream header (read_uint32_big_endian payload), .OK)

/-- The 6-byte settings entries read by the loop of
`parse_settings_payload`; fuel is the byte count. -/
def readSettingsList : Nat → List Nat → List (Nat × Nat)
  | 0, _ => []
  | Nat.succ fuel, bytes =>
    if bytes.length < 6 then []
    else (read_uint16_big_endian bytes, read_uint32_big_endian (bytes.drop 2)) ::
      readSettingsList fuel (bytes.drop 6)

/-- `parse_settings_payload` (cpp_lib/http2_parser.cpp lines 347-368).
Flag `ACK = 0x1`. -/
def parse_settings_payload (header : FrameHeader) (payload : List Nat) :
    AnyHttp2Frame × ParserError :=
  if header.streamId ≠ 0 then
    (.settings emptyFrameHeader [], .INVALID_STREAM_ID)
  else if header.flags &&& 1 ≠ 0 then
    if header.length ≠ 0 then (.settings emptyFrameHeader [], .INVALID_FRAME_SIZE)
    else (.settings header [], .OK)
  else if header.length % 6 ≠ 0 then
    (.settings emptyFrameHeader [], .INVALID_FRAME_SIZE)
  else (.settings header (readSettingsList payload.length payload), .OK)

/-- `parse_push_promise_payload` (cpp_lib/http2_parser.cpp lines
370-421), including its continuation bookkeeping. -/
def parse_push_promise_payload (conn : Http2ConnectionState)
    (header : FrameHeader) (payload : List Nat) :
    (AnyHttp2Frame × ParserError) × Http2ConnectionState :=
  if header.streamId = 0 then
    ((.push_promise emptyFrameHeader none 0 [], .INVALID_STREAM_ID), conn)
  else if conn.isServer then
    ((.push_promise emptyFrameHeader none 0 [], .PROTOCOL_ERROR), conn)
  else if header.flags &&& 8 ≠ 0 ∧ payload = [] then
    ((.push_promise emptyFrameHeader none 0 [], .INVALID_PADDING), conn)
  else if header.flags &&& 8 ≠ 0 ∧ payload.getD 0 0 % 256 > payload.length - 1 then
    ((.push_promise emptyFrameHeader none 0 [], .INVALID_PADDING), conn)
  else
    let pad : Nat := if header.flags &&& 8 ≠ 0 then payload.getD 0 0 % 256 else 0
    let padOpt : Option Nat := if header.flags &&& 8 ≠ 0 then some pad else none
    let off0 : Nat := if header.flags &&& 8 ≠ 0 then 1 else 0
    if payload.length - off0 < 4 then
      ((.push_promise emptyFrameHeader none 0 [], .INVALID_FRAME_SIZE), conn)
    else
      let promised := read_uint32_big_endian (payload.drop off0) % 2 ^ 31
      if promised = 0 then
        ((.push_promise emptyFrameHeader none 0 [], .INVALID_STREAM_ID), conn)
      else if payload.length < off0 + 4 + pad then
        ((.push_promise emptyFrameHeader none 0 [], .INVALID_PADDING), conn)
      else
        let frag := (payload.drop (off0 + 4)).take
          (payload.length - (off0 + 4) - pad)
        let conn1 :=
          if conn.expectedContinuationStreamId = some header.streamId then conn
          else { conn with headerBlockBuffer := [] }
        let conn2 :=
          { conn1 with headerBlockBuffer := conn1.headerBlockBuffer ++ frag }
        if header.flags &&& 4 ≠ 0 then
          match hpack_decode conn2.hpackTable conn2.headerBlockBuffer with
          | (decoded, HpackError.OK, table2) =>
              ((.push_promise header padOpt promised decoded, .OK),
                { conn2 with
                  hpackTable := table2
                  headerBlockBuffer := []
                  expectedContinuationStreamId := none })
          | (_, _, table2) =>
              ((.push_promise emptyFrameHeader none 0 [],
                  .HPACK_DECOMPRESSION_FAILED),
                { conn2 with
                  hpackTable := table2
                  headerBlockBuffer := []
                  expectedContinuationStreamId := none })
        else
          ((.push_promise header padOpt promised [], .OK),
            { conn2 with expectedContinuationStreamId := some header.streamId })

/-- `parse_ping_payload` (cpp_lib/http2_parser.cpp lines 423-431). -/
def parse_ping_payload (header : FrameHeader) (payload : List Nat) :
    AnyHttp2Frame × ParserError :=
  if header.length ≠ 8 then (.ping emptyFrameHeader [], .INVALID_FRAME_SIZE)
  else if header.streamId ≠ 0 then
    (.ping emptyFrameHeader [], .INVALID_STREAM_ID)
  else (.ping header payload, .OK)

/-- `parse_goaway_payload` (cpp_lib/http2_parser.cpp lines 433-446). -/
def parse_goaway_payload (header : FrameHeader) (payload : List Nat) :
    AnyHttp2Frame × ParserError :=
  if header.length < 8 then (.goaway emptyFrameHeader 0 0 [], .INVALID_FRAME_SIZE)
  else if header.streamId ≠ 0 then
    (.goaway emptyFrameHeader 0 0 [], .INVALID_STREAM_ID)
  else
    (.goaway header (read_uint32_big_endian payload % 2 ^ 31)
      (read_uint32_big_endian (payload.drop 4)) (payload.drop 8), .OK)

/-- `parse_window_update_payload` (cpp_lib/http2_parser.cpp lines
448-457): a 31-bit increment of zero is rejected with
`INVALID_WINDOW_UPDATE_INCREMENT`. -/
def parse_window_update_payload (header : FrameHeader) (payload : List Nat) :
    AnyHttp2Frame × ParserError :=
  if header.length ≠ 4 then
    (.window_update emptyFrameHeader 0, .INVALID_FRAME_SIZE)
  else if read_uint32_big_endian payload % 2 ^ 31 = 0 then
    (.window_update emptyFrameHeader 0, .INVALID_WINDOW_UPDATE_INCREMENT)
  else (.window_update header (read_uint32_big_endian payload % 2 ^ 31), .OK)

/-- `parse_continuation_payload` (cpp_lib/http2_parser.cpp lines
459-497): a CONTINUATION while none is expected is `PROTOCOL_ERROR`, a
CONTINUATION on a stream other than the expected one is
`CONTINUATION_WRONG_STREAM`; otherwise the payload is appended to the
header block buffer and, with `END_HEADERS`, the buffer is
HPACK-decoded and the continuation state reset (on HPACK failure the
C++ returns without clearing the buffer or the continuation state;
only the decoder table has advanced). -/
def parse_continuation_payload (conn : Http2ConnectionState)
    (header : FrameHeader) (payload : List Nat) :
    (AnyHttp2Frame × ParserError) × Http2ConnectionState :=
  if conn.expectedContinuationStreamId = none then
    ((.continuation emptyFrameHeader [], .PROTOCOL_ERROR), conn)
  else if header.streamId ≠ conn.expectedContinuationStreamId.getD 0 then
    ((.continuation emptyFrameHeader [], .CONTINUATION_WRONG_STREAM), conn)
  else if header.streamId = 0 then
    ((.continuation emptyFrameHeader [], .INVALID_STREAM_ID), conn)
  else
    let conn2 :=
      { conn with headerBlockBuffer := conn.headerBlockBuffer ++ payload }
    if header.flags &&& 4 ≠ 0 then
      match hpack_decode conn2.hpackTable conn2.headerBlockBuffer with
      | (_, HpackError.OK, table2) =>
          ((.continuation header payload, .OK),
            { conn2 with
              hpackTable := table2
              headerBlockBuffer := []
              expectedContinuationStreamId := none })
      | (_, _, table2) =>
          ((.continuation emptyFrameHeader [], .HPACK_DECOMPRESSION_FAILED),
            { conn2 with hpackTable := table2 })
    else ((.continuation header payload, .OK), conn2)

/-- The frame-type dispatch of `Http2Parser::parse` (cpp_lib lines
119-187); a type byte outside 0-9 hits the `default` branch and
reports `INVALID_FRAME_TYPE`. -/
def dispatchPayload (conn : Http2ConnectionState) (header : FrameHeader)
    (payload : List Nat) : (AnyHttp2Frame × ParserError) × Http2ConnectionState :=
  if header.type = 0 then (parse_data_payload header payload, conn)
  else if header.type = 1 then parse_headers_payload conn header payload
  else if header.type = 2 then (parse_priority_payload header payload, conn)
  else if header.type = 3 then (parse_rst_stream_payload header payload, conn)
  else if header.type = 4 then (parse_settings_payload header payload, conn)
  else if header.type = 5 then parse_push_promise_payload conn header payload
  else if header.type = 6 then (parse_ping_payload header payload, conn)
  else if header.type = 7 then (parse_goaway_payload header payload, conn)
  else if header.type = 8 then (parse_window_update_payload header payload, conn)
  else if header.type = 9 then parse_continuation_payload conn header payload
  else ((.data emptyFrameHeader none [], .INVALID_FRAME_TYPE), conn)

/-- The parser's mutable state: `current_state_` (payload stage or
not), `buffer_` and `pending_frame_header_`. -/
structure ParserState where
  readingPayload : Bool
  buffer : List Nat
  pendingHeader : FrameHeader
  deriving DecidableEq, Repr

/-- A freshly constructed parser. -/
def freshParserState : ParserState := ⟨false, [], emptyFrameHeader⟩

/-- The outcome of one `Http2Parser::parse` call: the return value
`(consumed, error)` together with the frames handed to the sink and
the final connection and parser states. -/
structure ParseResult where
  consumed : Nat
  error : ParserError
  delivered : List AnyHttp2Frame
  conn : Http2ConnectionState
  ps : ParserState
  deriving Repr

/-- The `while (true)` loop of `Http2Parser::parse` (cpp_lib lines
84-213), one call per iteration.  A recursing iteration consumes
`9 + length ≥ 9` buffered bytes, so `buffer.length + 1` fuel always
suffices; fuel exhaustion (unreachable) reports `INTERNAL_ERROR`.  The
`FRAME_SIZE_LIMIT_EXCEEDED` check runs only in the header stage, as in
the source; on a payload error the buffer is not consumed and the
parser stays in the payload stage. -/
def parseLoop : Nat → Http2ConnectionState → ParserState → Nat →
    List AnyHttp2Frame → ParseResult
  | 0, conn, ps, consumed, delivered =>
      ⟨consumed, .INTERNAL_ERROR, delivered, conn, ps⟩
  | Nat.succ fuel, conn, ps, consumed, delivered =>
    if ps.readingPayload = false ∧ ps.buffer.length < 9 then
      ⟨consumed, .OK, delivered, conn, ps⟩
    else if ps.readingPayload = false ∧
        (read_frame_header ps.buffer).length >
          conn.remoteSettings.max_frame_size then
      ⟨consumed, .FRAME_SIZE_LIMIT_EXCEEDED, delivered, conn,
        ⟨false, ps.buffer, read_frame_header ps.buffer⟩⟩
    else
      let ps1 : ParserState :=
        if ps.readingPayload then ps
        else ⟨true, ps.buffer, read_frame_header ps.buffer⟩
      if ps1.buffer.length < 9 + ps1.pendingHeader.length then
        ⟨consumed, .OK, delivered, conn, ps1⟩
      else
        match dispatchPayload conn ps1.pendingHeader
            ((ps1.buffer.drop 9).take ps1.pendingHeader.length) with
        | ((frame, ParserError.OK), conn2) =>
            parseLoop fuel conn2
              ⟨false, ps1.buffer.drop (9 + ps1.pendingHeader.length),
                ps1.pendingHeader⟩
              (consumed + (9 + ps1.pendingHeader.length))
              (delivered ++ [frame])
        | ((_, err), conn2) => ⟨consumed, err, delivered, conn2, ps1⟩

/-- `Http2Parser::parse`: append the new data to the internal buffer
and run the loop. -/
def parse (conn : Http2ConnectionState) (ps : ParserState)
    (data : List Nat) : ParseResult :=
  parseLoop ((ps.buffer ++ data).length + 1) conn
    ⟨ps.readingPayload, ps.buffer ++ data, ps.pendingHeader⟩ 0 []

/-- The error-code mapping of `process_incoming_data`
(http2_connection.cpp lines 82-108), with `ErrorCode` numeric values
from http2_types.h: `FRAME_SIZE_ERROR = 0x6`,
`COMPRESSION_ERROR = 0x9`, default `PROTOCOL_ERROR = 0x1`. -/
def parserErrorToGoAwayCode : ParserError → Nat
  | .FRAME_SIZE_LIMIT_EXCEEDED => 6
  | .HPACK_DECOMPRESSION_FAILED => 9
  | _ => 1

/-- The outcome of `Http2Connection::process_incoming_data`: consumed
byte count, the GOAWAY `(last_stream_id, error_code)` issued on a
parser error (if any), and the frames the parser delivered. -/
structure ProcessResult where
  consumed : Nat
  goawayAction : Option (Nat × Nat)
  delivered : List AnyHttp2Frame
  conn : Http2ConnectionState
  ps : ParserState
  deriving Repr

/-- `Http2Connection::process_incoming_data` (http2_connection.cpp
lines 69-121): run the parser; when it reports an error, map it to an
RFC 7540 error code and issue a GOAWAY with
`last_processed_stream_id_`.  No other action is taken — in
particular this path never emits `RST_STREAM`.  (The connection's
embedded parser copy, src/http2_parser.cpp, performs the same checks
as the cpp_lib copy modelled here for the frames considered below.) -/
def process_incoming_data (conn : Http2ConnectionState) (ps : ParserState)
    (data : List Nat) : ProcessResult :=
  let r := parse conn ps data
  ⟨r.consumed,
    if r.error = ParserError.OK then none
    else some (r.conn.lastProcessedStreamId, parserErrorToGoAwayCode r.error),
    r.delivered, r.conn, r.ps⟩

/-- C7 counterexample: after a HEADERS frame on stream 1 with
`END_HEADERS` clear (which starts a continuation sequence — the final
connection state still expects a CONTINUATION on stream 1), a PING
frame is parsed successfully and handed to the frame sink: the parser
accepts and delivers a frame of another kind in the middle of a header
block, with no error of any kind. -/
theorem continuation_interleaved_ping_accepted :
    (parse (mkHttp2Connection false) freshParserState
        ([0, 0, 0, 1, 0, 0, 0, 0, 1] ++
          [0, 0, 8, 6, 0, 0, 0, 0, 0, 1, 2, 3, 4, 5, 6, 7, 8])).error =
      ParserError.OK ∧
    (parse (mkHttp2Connection false) freshParserState
        ([0, 0, 0, 1, 0, 0, 0, 0, 1] ++
          [0, 0, 8, 6, 0, 0, 0, 0, 0, 1, 2, 3, 4, 5, 6, 7, 8])).delivered =
      [.headers ⟨0, 1, 0, 1⟩ none none [],
        .ping ⟨8, 6, 0, 0⟩ [1, 2, 3, 4, 5, 6, 7, 8]] ∧
    (parse (mkHttp2Connection false) freshParserState
        ([0, 0, 0, 1, 0, 0, 0, 0, 1] ++
          [0, 0, 8, 6, 0, 0, 0, 0, 0, 1, 2, 3, 4, 5, 6, 7, 8])).conn.expectedContinuationStreamId =
      some 1 ∧
    (parse (mkHttp2Connection false) freshParserState
        ([0, 0, 0, 1, 0, 0, 0, 0, 1] ++
          [0, 0, 8, 6, 0, 0, 0, 0, 0, 1, 2, 3, 4, 5, 6, 7, 8])).consumed = 26 :=
  ⟨rfl, rfl, rfl, rfl⟩

/-- C7 (amended): the only continuation-sequence enforcement in the
parser sits in `parse_continuation_payload`: (i) a CONTINUATION frame
while no sequence is open fails with `PROTOCOL_ERROR` and leaves the
connection untouched; (ii) a CONTINUATION on a stream other than the
expected one fails with `CONTINUATION_WRONG_STREAM`; and at the
`parse` level such an offending CONTINUATION is not delivered to the
frame sink and parsing stops with that error (shown on representative
wire bytes).  Frames of other types arriving inside a sequence are not
rejected — they are parsed by their own rules and delivered (see the
companion counterexample); the declared `CONTINUATION_EXPECTED` error
code is produced nowhere. -/
theorem continuation_sequence_checks
    (conn1 : Http2ConnectionState) (hdr1 : FrameHeader) (p1 : List Nat)
    (hnone : conn1.expectedContinuationStreamId = none)
    (conn2 : Http2ConnectionState) (S : Nat) (hdr2 : FrameHeader)
    (p2 : List Nat)
    (hexp : conn2.expectedContinuationStreamId = some S)
    (hne : hdr2.streamId ≠ S) :
    parse_continuation_payload conn1 hdr1 p1 =
      ((.continuation emptyFrameHeader [], .PROTOCOL_ERROR), conn1) ∧
    parse_continuation_payload conn2 hdr2 p2 =
      ((.continuation emptyFrameHeader [], .CONTINUATION_WRONG_STREAM), conn2) ∧
    (parse (mkHttp2Connection false) freshParserState
        [0, 0, 0, 9, 4, 0, 0, 0, 1]).error = ParserError.PROTOCOL_ERROR ∧
    (parse (mkHttp2Connection false) freshParserState
        [0, 0, 0, 9, 4, 0, 0, 0, 1]).delivered = [] ∧
    (parse { mkHttp2Connection false with
        expectedContinuationStreamId := some 1 } freshParserState
        [0, 0, 0, 9, 4, 0, 0, 0, 3]).error =
      ParserError.CONTINUATION_WRONG_STREAM ∧
    (parse { mkHttp2Connection false with
        expectedContinuationStreamId := some 1 } freshParserState
        [0, 0, 0, 9, 4, 0, 0, 0, 3]).delivered = [] := by
  refine ⟨?_, ?_, rfl, rfl, rfl, rfl⟩
  · simp [parse_continuation_payload, hnone]
  · simp [parse_continuation_payload, hexp, hne]

/-- Witness for the amended C7 theorem at concrete states: a fresh
client connection (expecting nothing) fed an arbitrary CONTINUATION,
and a connection expecting stream 1 fed a CONTINUATION for stream 3. -/
theorem continuation_sequence_checks_witness :
    ((mkHttp2Connection false).expectedContinuationStreamId = none ∧
      ({ mkHttp2Connection false with
        expectedContinuationStreamId := some 1 } :
          Http2ConnectionState).expectedContinuationStreamId = some 1 ∧
      (FrameHeader.mk 0 9 4 3).streamId ≠ 1) ∧
    (parse_continuation_payload (mkHttp2Connection false) ⟨0, 9, 4, 1⟩ [] =
      ((.continuation emptyFrameHeader [], .PROTOCOL_ERROR),
        mkHttp2Connection false) ∧
    parse_continuation_payload
        { mkHttp2Connection false with
          expectedContinuationStreamId := some 1 } ⟨0, 9, 4, 3⟩ [] =
      ((.continuation emptyFrameHeader [], .CONTINUATION_WRONG_STREAM),
        { mkHttp2Connection false with
          expectedContinuationStreamId := some 1 }) ∧
    (parse (mkHttp2Connection false) freshParserState
        [0, 0, 0, 9, 4, 0, 0, 0, 1]).error = ParserError.PROTOCOL_ERROR ∧
    (parse (mkHttp2Connection false) freshParserState
        [0, 0, 0, 9, 4, 0, 0, 0, 1]).delivered = [] ∧
    (parse { mkHttp2Connection false with
        expectedContinuationStreamId := some 1 } freshParserState
        [0, 0, 0, 9, 4, 0, 0, 0, 3]).error =
      ParserError.CONTINUATION_WRONG_STREAM ∧
    (parse { mkHttp2Connection false with
        expectedContinuationStreamId := some 1 } freshParserState
        [0, 0, 0, 9, 4, 0, 0, 0, 3]).delivered = []) :=
  ⟨⟨rfl, rfl, by decide⟩,
    continuation_sequence_checks (mkHttp2Connection false) ⟨0, 9, 4, 1⟩ []
      rfl
      { mkHttp2Connection false with expectedContinuationStreamId := some 1 }
      1 ⟨0, 9, 4, 3⟩ [] rfl (by decide)⟩

/-- C8 counterexample: feeding the engine the wire bytes
`00 00 04 08 00 00 00 00 01 00 00 00 00` (WINDOW_UPDATE, stream 1,
increment 0) does not produce the claimed stream-level RST_STREAM: the
frame never reaches any frame handler (nothing is delivered to the
sink, so no RST_STREAM can be emitted) and the engine instead issues a
connection-level GOAWAY with code `PROTOCOL_ERROR (0x1)`. -/
theorem window_update_zero_increment_no_rst :
    (process_incoming_data (mkHttp2Connection false) freshParserState
        [0, 0, 4, 8, 0, 0, 0, 0, 1, 0, 0, 0, 0]).goawayAction =
      some (0, 1) ∧
    (process_incoming_data (mkHttp2Connection false) freshParserState
        [0, 0, 4, 8, 0, 0, 0, 0, 1, 0, 0, 0, 0]).delivered = [] :=
  ⟨rfl, rfl⟩

/-- C8 (amended): a WINDOW_UPDATE with a zero 31-bit increment is
rejected inside the parser with `INVALID_WINDOW_UPDATE_INCREMENT`
(generally, for any header of length 4 and any payload whose masked
increment is zero), so the frame is never delivered to a handler; on
the claim's exact bytes the engine consumes nothing and maps the
parser error to a connection-level `GOAWAY(last_stream_id = 0,
PROTOCOL_ERROR)` — not to the stream-level RST_STREAM the original
claim expects (`handle_window_update_frame`'s RST path is unreachable
from the wire for a zero increment). -/
theorem window_update_zero_increment_behavior
    (hdr : FrameHeader) (p : List Nat) (h4 : hdr.length = 4)
    (hz : read_uint32_big_endian p % 2 ^ 31 = 0) :
    parse_window_update_payload hdr p =
      (.window_update emptyFrameHeader 0,
        ParserError.INVALID_WINDOW_UPDATE_INCREMENT) ∧
    (parse (mkHttp2Connection false) freshParserState
        [0, 0, 4, 8, 0, 0, 0, 0, 1, 0, 0, 0, 0]).error =
      ParserError.INVALID_WINDOW_UPDATE_INCREMENT ∧
    (parse (mkHttp2Connection false) freshParserState
        [0, 0, 4, 8, 0, 0, 0, 0, 1, 0, 0, 0, 0]).delivered = [] ∧
    (process_incoming_data (mkHttp2Connection false) freshParserState
        [0, 0, 4, 8, 0, 0, 0, 0, 1, 0, 0, 0, 0]).goawayAction =
      some (0, 1) ∧
    (process_incoming_data (mkHttp2Connection false) freshParserState
        [0, 0, 4, 8, 0, 0, 0, 0, 1, 0, 0, 0, 0]).consumed = 0 := by
  refine ⟨?_, rfl, rfl, rfl, rfl⟩
  simp [parse_window_update_payload, h4, hz]
  omega

/-- Witness for the amended C8 theorem at the claim's exact frame:
header `(length 4, type 8, flags 0, stream 1)` with payload
`[0, 0, 0, 0]`. -/
theorem window_update_zero_increment_behavior_witness :
    ((FrameHeader.mk 4 8 0 1).length = 4 ∧
      read_uint32_big_endian [0, 0, 0, 0] % 2 ^ 31 = 0) ∧
    (parse_window_update_payload ⟨4, 8, 0, 1⟩ [0, 0, 0, 0] =
      (.window_update emptyFrameHeader 0,
        ParserError.INVALID_WINDOW_UPDATE_INCREMENT) ∧
    (parse (mkHttp2Connection false) freshParserState
        [0, 0, 4, 8, 0, 0, 0, 0, 1, 0, 0, 0, 0]).error =
      ParserError.INVALID_WINDOW_UPDATE_INCREMENT ∧
    (parse (mkHttp2Connection false) freshParserState
        [0, 0, 4, 8, 0, 0, 0, 0, 1, 0, 0, 0, 0]).delivered = [] ∧
    (process_incoming_data (mkHttp2Connection false) freshParserState
        [0, 0, 4, 8, 0, 0, 0, 0, 1, 0, 0, 0, 0]).goawayAction =
      some (0, 1) ∧
    (process_incoming_data (mkHttp2Connection false) freshParserState
        [0, 0, 4, 8, 0, 0, 0, 0, 1, 0, 0, 0, 0]).consumed = 0) :=
  ⟨⟨rfl, by decide⟩,
    window_update_zero_increment_behavior ⟨4, 8, 0, 1⟩ [0, 0, 0, 0] rfl
      (by decide)⟩

/-!
## Sending DATA (`Http2Connection::send_data`)

The `on_send_bytes_` callback receives serialised frames;
`FrameSerializer::serialize_data_frame` always produces the 9 header
bytes plus the payload (its "empty output" error branch is
unreachable), and sets the header length to the payload size, so an
emitted frame is modelled by its stream id, flag byte and payload. -/

/-- A DATA frame handed to `on_send_bytes_`. -/
structure SentFrame where
  streamId : Nat
  flags : Nat
  payload : List Nat
  deriving DecidableEq, Repr

/-- `Http2Connection::get_stream`: map lookup. -/
def get_stream (conn : Http2ConnectionState) (id : Nat) : Option Http2Stream :=
  conn.streams.find? (fun s => s.id == id)

/-- Writing back an in-place mutation of the stream held in
`streams_`. -/
def setStream (conn : Http2ConnectionState) (s' : Http2Stream) :
    Http2ConnectionState :=
  { conn with
    streams := conn.streams.map (fun u => if u.id = s'.id then s' else u) }

/-- `Http2Stream::transition_to_half_closed_local` (http2_stream.cpp
lines 117-127). -/
def transition_to_half_closed_local (s : Http2Stream) : Http2Stream :=
  if s.state = .OPEN ∨ s.state = .RESERVED_LOCAL then
    ⟨s.id, .HALF_CLOSED_LOCAL, s.localWindow, s.remoteWindow⟩
  else if s.state = .HALF_CLOSED_REMOTE then
    ⟨s.id, .CLOSED, s.localWindow, s.remoteWindow⟩
  else s

/-- `Http2Connection::record_connection_data_sent` (http2_connection.cpp
lines 703-705): `remote_connection_window_size_ -=
static_cast<int32_t>(size)` (an `int32_t` subtraction, modelled with
the signed 32-bit wrap). -/
def record_connection_data_sent (conn : Http2ConnectionState) (size : Nat) :
    Http2ConnectionState :=
  { conn with remoteConnectionWindow :=
      (conn.remoteConnectionWindow - int32OfUInt32 size + 2 ^ 31) % 2 ^ 32 -
        2 ^ 31 }

/-- The segmentation loop of `Http2Connection::send_data`
(http2_connection.cpp lines 899-970), one call per iteration.  Every
recursing iteration sends a chunk of at least one byte, so
`data.length + 1` fuel always suffices (exhaustion, unreachable,
returns `false`).  Returns the C++ `bool`, the emitted DATA frames and
the final connection. -/
def sendDataLoop : Nat → Http2ConnectionState → Nat → List Nat → Bool →
    Nat → List SentFrame → Bool × List SentFrame × Http2ConnectionState
  | 0, conn, _, _, _, _, acc => (false, acc, conn)
  | Nat.succ fuel, conn, streamId, data, endStream, off, acc =>
    if ¬ (off < data.length ∨ (data = [] ∧ off = 0 ∧ endStream)) then
      (true, acc, conn)
    else
      match get_stream conn streamId with
      | none => (false, acc, conn)
      | some s =>
        if ((max 0 s.remoteWindow).toNat = 0 ∨
            (max 0 conn.remoteConnectionWindow).toNat = 0) ∧
            ¬ (data = [] ∧ off = 0 ∧ endStream) then
          if off < data.length then (decide (0 < off), acc, conn)
          else (true, acc, conn)
        else
          if min (min (min (data.length - off)
                conn.remoteSettings.max_frame_size)
              ((max 0 s.remoteWindow).toNat))
              ((max 0 conn.remoteConnectionWindow).toNat) = 0 ∧
              0 < data.length - off then
            (decide (0 < off), acc, conn)
          else
            let chunk : Nat :=
              if data = [] ∧ off = 0 ∧ endStream then 0
              else min (min (min (data.length - off)
                  conn.remoteSettings.max_frame_size)
                ((max 0 s.remoteWindow).toNat))
                ((max 0 conn.remoteConnectionWindow).toNat)
            let flags : Nat :=
              if endStream = true ∧ off + chunk = data.length then 1 else 0
            let s1 :=
              if endStream = true ∧ off + chunk = data.length then
                transition_to_half_closed_local (record_data_sent s chunk)
              else record_data_sent s chunk
            let conn1 := record_connection_data_sent (setStream conn s1) chunk
            let acc1 := acc ++ [⟨streamId, flags, (data.drop off).take chunk⟩]
            if data = [] ∧ off + chunk = 0 ∧ endStream then (true, acc1, conn1)
            else if off + chunk = data.length then (true, acc1, conn1)
            else sendDataLoop fuel conn1 streamId data endStream (off + chunk)
              acc1

/-- `Http2Connection::send_data` (http2_connection.cpp lines 885-971):
reject stream 0, unknown streams and streams that are neither `OPEN`
nor `HALF_CLOSED_REMOTE`, then run the segmentation loop (the
`on_send_bytes_` callback is assumed installed). -/
def send_data (conn : Http2ConnectionState) (streamId : Nat)
    (data : List Nat) (endStream : Bool) :
    Bool × List SentFrame × Http2ConnectionState :=
  if streamId = 0 then (false, [], conn)
  else
    match get_stream conn streamId with
    | none => (false, [], conn)
    | some s =>
      if s.state ≠ .OPEN ∧ s.state ≠ .HALF_CLOSED_REMOTE then (false, [], conn)
      else sendDataLoop (data.length + 1) conn streamId data endStream 0 []

/-- A fresh client connection holding a single `OPEN` stream 1 with
both windows at the default 65535, for exercising `send_data`. -/
def c9Conn : Http2ConnectionState :=
  { mkHttp2Connection false with streams := [⟨1, .OPEN, 65535, 65535⟩] }

/-- One unfolding of `sendDataLoop`, stated for an arbitrary fuel value
so that a numeral fuel can be stepped without matching on
`Nat.succ`. -/
lemma sendDataLoop_unfold (n : Nat) (conn : Http2ConnectionState)
    (streamId : Nat) (data : List Nat) (endStream : Bool) (off : Nat)
    (acc : List SentFrame) :
    sendDataLoop n conn streamId data endStream off acc =
      if n = 0 then (false, acc, conn)
      else
        if ¬ (off < data.length ∨ (data = [] ∧ off = 0 ∧ endStream)) then
          (true, acc, conn)
        else
          match get_stream conn streamId with
          | none => (false, acc, conn)
          | some s =>
            if ((max 0 s.remoteWindow).toNat = 0 ∨
                (max 0 conn.remoteConnectionWindow).toNat = 0) ∧
                ¬ (data = [] ∧ off = 0 ∧ endStream) then
              if off < data.length then (decide (0 < off), acc, conn)
              else (true, acc, conn)
            else
              if min (min (min (data.length - off)
                    conn.remoteSettings.max_frame_size)
                  ((max 0 s.remoteWindow).toNat))
                  ((max 0 conn.remoteConnectionWindow).toNat) = 0 ∧
                  0 < data.length - off then
                (decide (0 < off), acc, conn)
              else
                let chunk : Nat :=
                  if data = [] ∧ off = 0 ∧ endStream then 0
                  else min (min (min (data.length - off)
                      conn.remoteSettings.max_frame_size)
                    ((max 0 s.remoteWindow).toNat))
                    ((max 0 conn.remoteConnectionWindow).toNat)
                let flags : Nat :=
                  if endStream = true ∧ off + chunk = data.length then 1 else 0
                let s1 :=
                  if endStream = true ∧ off + chunk = data.length then
                    transition_to_half_closed_local (record_data_sent s chunk)
                  else record_data_sent s chunk
                let conn1 := record_connection_data_sent (setStream conn s1) chunk
                let acc1 := acc ++ [⟨streamId, flags, (data.drop off).take chunk⟩]
                if data = [] ∧ off + chunk = 0 ∧ endStream then (true, acc1, conn1)
                else if off + chunk = data.length then (true, acc1, conn1)
                else sendDataLoop (n - 1) conn1 streamId data endStream
                  (off + chunk) acc1 := by
  cases n with
  | zero => rfl
  | succ m => rfl

/-- C9: on a connection with default settings (remote
`max_frame_size` 16384, windows 65535) whose stream 1 is `OPEN`,
`send_data(1, data, end_stream = true)` for any 30000-byte `data`
succeeds and emits exactly two DATA frames: the first 16384 bytes with
no flags, then the remaining 13616 bytes with `END_STREAM` (0x1); the
stream moves to `HALF_CLOSED_LOCAL` and both the stream's and the
connection's send windows drop by 30000 to 35535. -/
theorem send_data_segmentation (data : List Nat) (hlen : data.length = 30000) :
    send_data c9Conn 1 data true =
      (true, [⟨1, 0, data.take 16384⟩, ⟨1, 1, (data.drop 16384).take 13616⟩],
        { c9Conn with
          streams := [⟨1, .HALF_CLOSED_LOCAL, 65535, 35535⟩]
          remoteConnectionWindow := 35535 }) := by
  have hne : data ≠ [] := by
    intro h
    rw [h] at hlen
    exact absurd hlen (by decide)
  have h0 : send_data c9Conn 1 data true =
      sendDataLoop (data.length + 1) c9Conn 1 data true 0 [] := rfl
  rw [h0, hlen, sendDataLoop_unfold, hlen,
    show get_stream c9Conn 1 = some (⟨1, .OPEN, 65535, 65535⟩ : Http2Stream)
      from rfl,
    show c9Conn.remoteConnectionWindow = (65535 : Int) from rfl,
    show c9Conn.remoteSettings.max_frame_size = 16384 from rfl]
  dsimp only
  simp only [eq_false hne, false_and, and_false, or_false, false_or]
  split_ifs <;> first | rfl | contradiction | (exfalso; omega) | skip
  show sendDataLoop 30000
      { c9Conn with
        streams := [⟨1, .OPEN, 65535, 49151⟩]
        remoteConnectionWindow := 49151 } 1 data true 16384
      [⟨1, 0, data.take 16384⟩] = _
  rw [sendDataLoop_unfold, hlen,
    show get_stream
        { c9Conn with
          streams := [⟨1, .OPEN, 65535, 49151⟩]
          remoteConnectionWindow := 49151 } 1 =
      some (⟨1, .OPEN, 65535, 49151⟩ : Http2Stream) from rfl,
    show ({ c9Conn with
        streams := [⟨1, .OPEN, 65535, 49151⟩]
        remoteConnectionWindow := 49151 } :
          Http2ConnectionState).remoteConnectionWindow = (49151 : Int) from rfl,
    show ({ c9Conn with
        streams := [⟨1, .OPEN, 65535, 49151⟩]
        remoteConnectionWindow := 49151 } :
          Http2ConnectionState).remoteSettings.max_frame_size = 16384 from rfl]
  dsimp only
  simp only [eq_false hne, false_and, and_false, or_false, false_or]
  split_ifs <;> first | rfl | contradiction | (exfalso; omega)

/-- Witness for C9 at a concrete 30000-byte input (all zero bytes). -/
theorem send_data_segmentation_witness :
    (List.replicate 30000 0).length = 30000 ∧
    send_data c9Conn 1 (List.replicate 30000 0) true =
      (true,
        [⟨1, 0, (List.replicate 30000 0).take 16384⟩,
          ⟨1, 1, ((List.replicate 30000 0).drop 16384).take 13616⟩],
        { c9Conn with
          streams := [⟨1, .HALF_CLOSED_LOCAL, 65535, 35535⟩]
          remoteConnectionWindow := 35535 }) :=
  ⟨List.length_replicate 30000 0,
    send_data_segmentation (List.replicate 30000 0)
      (List.length_replicate 30000 0)⟩


end Http2
